import Mathlib

/-!
Shallow embedding of the SentinelAI risk-scoring engine
(backend/app/{bias_detection, drift_detection, explainability,
audit_engine, recommendations}.py) and proofs about it.

Modelling conventions:
* Python/numpy floats are modelled as exact rationals; `round(x, n)`
  is modelled by `roundTo n` (round half up — no verified claim
  exercises an exact tie, where the banker rounding of Python would
  differ).
* A pandas mean over an empty selection is NaN; we model a possibly
  empty mean as `Option ℚ` with `none` for NaN, and comparisons with
  NaN (which are False in Python) via `nanGT`.
* The scipy two-sample KS test and the synthetic baseline dataset are
  external to the scoring core (scipy is a library, the baseline comes
  from the out-of-scope dataset generator); they enter the drift score
  only through the four per-feature drift flags and the baseline
  approval rate, which the embedding takes as parameters.
* Purely presentational dict entries (explanation strings, f-string
  descriptions, per-feature analysis blobs) are omitted from the
  result structures; every field consumed by any downstream
  computation is kept.
-/

/-- One row of the fixed credit-decision schema (models.py / §3 of the
design): both `prediction` and `actual_outcome` are 0/1 valued but are
stored as numbers because the source takes column means of them. -/
structure Record where
  customer_id : Nat
  age : Int
  gender : String
  income : ℚ
  credit_score : ℚ
  employment_type : String
  debt_ratio : ℚ
  prediction : ℚ
  actual_outcome : ℚ
deriving DecidableEq

/-- Mean of a list of rationals (junk value 0 on the empty list; the
source produces NaN there, and every theorem that depends on a mean
either assumes the list nonempty or goes through `meanOpt`). -/
def meanQ (l : List ℚ) : ℚ := l.sum / l.length

/-- Mean as pandas computes it on a possibly-empty selection:
`none` models NaN. -/
def meanOpt (l : List ℚ) : Option ℚ :=
  if l.isEmpty then none else some (meanQ l)

/-- Python `round(x, n)` on our rational model: round to `n` decimal
places. -/
def roundTo (n : Nat) (x : ℚ) : ℚ := ((round (x * 10 ^ n) : ℤ) : ℚ) / 10 ^ n

/-- NaN-aware strict greater-than: any comparison against NaN is
False in Python. -/
def nanGT (a b : Option ℚ) : Bool :=
  match a, b with
  | some x, some y => decide (y < x)
  | _, _ => false

/-- Distinct keys of a column in first-occurrence order (pandas sorts
group keys, but no verified claim depends on the key order, only on
the key set and the multiset of group means). -/
def keysOf (l : List String) : List String :=
  l.foldl (fun acc k => if k ∈ acc then acc else acc ++ [k]) []

/-- `df.groupby(col)[outcome].mean()` for the prediction column:
per-key mean of `prediction` over the rows with that key.  Keys are
exactly the values occurring in the dataset, so every group is
nonempty and its mean is total. -/
def groupMeans (D : List Record) (col : Record → String) : List (String × ℚ) :=
  (keysOf (D.map col)).map
    (fun k => (k, meanQ ((D.filter (fun r => col r == k)).map Record.prediction)))

/-- `series.get(key, 0)`: lookup with default 0. -/
def lookupD (l : List (String × ℚ)) (k : String) : ℚ := ((l.lookup k).getD 0)

/-- Maximum of a list of rates (series max; only applied to nonempty
group series, junk 0 on the empty list). -/
def listMax (l : List ℚ) : ℚ :=
  match l with
  | [] => 0
  | x :: xs => xs.foldl max x

/-- Minimum of a list of rates. -/
def listMin (l : List ℚ) : ℚ :=
  match l with
  | [] => 0
  | x :: xs => xs.foldl min x

/-- `series.idxmax()`: first key attaining the maximal value. -/
def idxmaxKey (l : List (String × ℚ)) : String :=
  match l.find? (fun p => p.2 == listMax (l.map Prod.snd)) with
  | some p => p.1
  | none => ""

/-- `series.idxmin()`: first key attaining the minimal value. -/
def idxminKey (l : List (String × ℚ)) : String :=
  match l.find? (fun p => p.2 == listMin (l.map Prod.snd)) with
  | some p => p.1
  | none => ""

/-- config.py: DI_THRESHOLD = 0.8. -/
def DI_THRESHOLD : ℚ := 8 / 10

/-- Result of `calculate_disparate_impact` (the constant `threshold`
echo field is dropped; the early-return dict of the source carries
only `di_ratio` and `violation`, the remaining fields are filled with
inert defaults here). -/
structure DIResult where
  di_ratio : ℚ
  violation : Bool
  privileged_group : String
  privileged_rate : ℚ
  unprivileged_group : String
  unprivileged_rate : ℚ
deriving DecidableEq

/-- Privileged (group, rate): fixed "Male" for the gender column via
`groups.get("Male", 0)`, otherwise the group of maximal rate. -/
def diPriv (groups : List (String × ℚ)) (colName : String) : String × ℚ :=
  if colName = "gender" then ("Male", lookupD groups "Male")
  else (idxmaxKey groups, listMax (groups.map Prod.snd))

/-- Unprivileged (group, rate): fixed "Female" for the gender column,
otherwise the group of minimal rate. -/
def diUnpriv (groups : List (String × ℚ)) (colName : String) : String × ℚ :=
  if colName = "gender" then ("Female", lookupD groups "Female")
  else (idxminKey groups, listMin (groups.map Prod.snd))

/-- `di_ratio = unprivileged_rate / privileged_rate if privileged_rate > 0 else 1.0`. -/
def diRatioRaw (pr ur : ℚ) : ℚ := if pr > 0 then ur / pr else 1

/-- bias_detection.calculate_disparate_impact.  `colName` is the
protected column name (the source receives it as a string and
special-cases "gender"), `col` the corresponding accessor. -/
def calculate_disparate_impact (D : List Record) (colName : String)
    (col : Record → String) : DIResult :=
  let groups := groupMeans D col
  if groups.length < 2 then ⟨1, false, "", 0, "", 0⟩
  else
    let p := diPriv groups colName
    let u := diUnpriv groups colName
    let di := diRatioRaw p.2 u.2
    ⟨roundTo 3 di, decide (di < DI_THRESHOLD), p.1, roundTo 3 p.2, u.1, roundTo 3 u.2⟩

/-- `pd.cut(age, bins=[18,30,45,60,100], labels=[...])`: intervals are
left-open and right-closed, so the bucket of an 18-year-old is `none`
(NaN), and such rows are dropped by the subsequent groupby. -/
def ageBucket (a : Int) : Option String :=
  if 18 < a ∧ a ≤ 30 then some "18-30"
  else if 30 < a ∧ a ≤ 45 then some "31-45"
  else if 45 < a ∧ a ≤ 60 then some "46-60"
  else if 60 < a ∧ a ≤ 100 then some "60+"
  else none

/-- The four fixed age-bucket labels. -/
def bucketNames : List String := ["18-30", "31-45", "46-60", "60+"]

/-- Approval rate per age bucket; an empty bucket has NaN mean
(pandas keeps all four categorical buckets, empty ones with NaN). -/
def ageRates (D : List Record) : List (String × Option ℚ) :=
  bucketNames.map
    (fun b => (b, meanOpt ((D.filter (fun r => ageBucket r.age == some b)).map Record.prediction)))

/-- The non-NaN bucket rates (pandas max/min skip NaN). -/
def validAgeRates (D : List Record) : List ℚ := (ageRates D).filterMap Prod.snd

/-- Series max with NaN skipped; `none` when every bucket is empty. -/
def omaxQ (l : List ℚ) : Option ℚ :=
  match l with
  | [] => none
  | x :: xs => some (xs.foldl max x)

/-- Series min with NaN skipped. -/
def ominQ (l : List ℚ) : Option ℚ :=
  match l with
  | [] => none
  | x :: xs => some (xs.foldl min x)

/-- `age_di = min_rate / max_rate if max_rate > 0 else 1.0` — a NaN
max (all buckets empty) fails the `> 0` comparison and also yields 1. -/
def ageDIRaw (D : List Record) : ℚ :=
  match omaxQ (validAgeRates D), ominQ (validAgeRates D) with
  | some M, some m => if M > 0 then m / M else 1
  | _, _ => 1

/-- Result of `calculate_age_group_bias` (the per-bucket rate dict is
reported rounded; highest/lowest group are idxmax/idxmin — on an
all-NaN series the source would raise, here they degrade to ""). -/
structure AgeBiasResult where
  di_ratio : ℚ
  violation : Bool
  highest_group : String
  lowest_group : String
deriving DecidableEq

/-- First bucket attaining the max rate among non-empty buckets. -/
def ageIdxmax (D : List Record) : String :=
  match (ageRates D).find? (fun p => p.2 == omaxQ (validAgeRates D)) with
  | some p => p.1
  | none => ""

/-- First bucket attaining the min rate among non-empty buckets. -/
def ageIdxmin (D : List Record) : String :=
  match (ageRates D).find? (fun p => p.2 == ominQ (validAgeRates D)) with
  | some p => p.1
  | none => ""

/-- bias_detection.calculate_age_group_bias. -/
def calculate_age_group_bias (D : List Record) : AgeBiasResult :=
  ⟨roundTo 3 (ageDIRaw D), decide (ageDIRaw D < DI_THRESHOLD), ageIdxmax D, ageIdxmin D⟩

/-- Result of `detect_income_proxy_bias`; `none` fields model NaN
(empty subgroup). -/
structure IncomeProxyResult where
  proxy_detected : Bool
  income_gap_percent : Option ℚ
  male_approved_avg_income : Option ℚ
  female_approved_avg_income : Option ℚ
deriving DecidableEq

/-- Mean income of the rows with the given gender and prediction
value. -/
def subgroupIncomeMean (D : List Record) (g : String) (outcome : ℚ) : Option ℚ :=
  meanOpt ((D.filter (fun r => r.gender == g && r.prediction == outcome)).map Record.income)

/-- bias_detection.detect_income_proxy_bias.  The proxy flag compares
mean income of denied females against 1.1 times that of denied males;
either subgroup empty means a NaN operand and a False comparison. -/
def detect_income_proxy_bias (D : List Record) : IncomeProxyResult :=
  let mApp := subgroupIncomeMean D "Male" 1
  let fApp := subgroupIncomeMean D "Female" 1
  let mDen := subgroupIncomeMean D "Male" 0
  let fDen := subgroupIncomeMean D "Female" 0
  let gap : Option ℚ :=
    match mApp, fApp with
    | some x, some y => some (|x - y| / max x y)
    | _, _ => none
  { proxy_detected := nanGT fDen (mDen.map (· * (11 / 10)))
    income_gap_percent := gap.map (fun g => roundTo 1 (g * 100))
    male_approved_avg_income := mApp.map (roundTo 0)
    female_approved_avg_income := fApp.map (roundTo 0) }

/-- A violation entry: type and severity (value/threshold/description
are presentational). -/
structure Violation where
  vtype : String
  severity : String
deriving DecidableEq

/-- The gender-risk curve of `calculate_bias_risk_score` applied to
the reported (3-decimal rounded) DI ratio `r`: the first assignment
(line 115) and the overriding amplification for `r` below threshold
(lines 118-119). -/
def genderRiskFun (r : ℚ) : ℚ :=
  let g0 := if r < DI_THRESHOLD then max 0 ((DI_THRESHOLD - r) / DI_THRESHOLD) * 100
            else max 0 ((1 - r) * 20)
  if r < DI_THRESHOLD then 50 + (DI_THRESHOLD - r) * 200 else g0

/-- The age-risk component, applied to the reported age DI ratio. -/
def ageRiskFun (r : ℚ) : ℚ :=
  if r < DI_THRESHOLD then max 0 ((DI_THRESHOLD - r) / DI_THRESHOLD) * 100 else 0

/-- Result of `calculate_bias_risk_score`. -/
structure BiasResult where
  bias_risk_score : ℚ
  gender_di : DIResult
  age_bias : AgeBiasResult
  income_proxy : IncomeProxyResult
  violations : List Violation
  total_violations : Nat
deriving DecidableEq

/-- The unrounded composite bias score
`min(100, 0.6*gender_risk + 0.25*age_risk + 0.15*proxy_risk)`. -/
def biasRiskRaw (D : List Record) : ℚ :=
  let gdi := calculate_disparate_impact D "gender" Record.gender
  let ab := calculate_age_group_bias D
  let proxy := detect_income_proxy_bias D
  let gender_risk := genderRiskFun gdi.di_ratio
  let age_risk := ageRiskFun ab.di_ratio
  let proxy_risk : ℚ := if proxy.proxy_detected then 20 else 0
  min 100 (6 / 10 * gender_risk + 25 / 100 * age_risk + 15 / 100 * proxy_risk)

/-- bias_detection.calculate_bias_risk_score. -/
def calculate_bias_risk_score (D : List Record) : BiasResult :=
  let gdi := calculate_disparate_impact D "gender" Record.gender
  let ab := calculate_age_group_bias D
  let proxy := detect_income_proxy_bias D
  let violations : List Violation :=
    (if gdi.violation then
      [⟨"Gender Disparate Impact", if gdi.di_ratio < 7 / 10 then "Critical" else "High"⟩]
     else []) ++
    (if ab.violation then [⟨"Age Group Disparate Impact", "Moderate"⟩] else []) ++
    (if proxy.proxy_detected then [⟨"Income Proxy Bias", "Moderate"⟩] else [])
  { bias_risk_score := roundTo 1 (biasRiskRaw D)
    gender_di := gdi
    age_bias := ab
    income_proxy := proxy
    violations := violations
    total_violations := violations.length }

/-- Result of `calculate_accuracy_drift`; the `significant_drop` flag
is evaluated on the unrounded drop, the reported numeric fields are
rounded as in the source. -/
structure AccuracyDriftResult where
  baseline_accuracy : ℚ
  current_accuracy : ℚ
  accuracy_drop : ℚ
  accuracy_drop_percent : ℚ
  significant_drop : Bool
deriving DecidableEq

/-- Fixed baseline accuracy constant of drift_detection.py. -/
def BASELINE_ACCURACY : ℚ := 87 / 100

/-- Unrounded current accuracy: fraction of rows with
`prediction == actual_outcome`. -/
def currentAccuracyRaw (D : List Record) : ℚ :=
  meanQ (D.map (fun r => if r.prediction = r.actual_outcome then (1 : ℚ) else 0))

/-- drift_detection.calculate_accuracy_drift (meaningful on nonempty
datasets; on an empty one the source produces NaN). -/
def calculate_accuracy_drift (D : List Record) : AccuracyDriftResult :=
  let acc := currentAccuracyRaw D
  let drop := BASELINE_ACCURACY - acc
  let pct := drop / BASELINE_ACCURACY * 100
  { baseline_accuracy := BASELINE_ACCURACY
    current_accuracy := roundTo 3 acc
    accuracy_drop := roundTo 3 drop
    accuracy_drop_percent := roundTo 1 pct
    significant_drop := decide (drop > 5 / 100) }

/-- Result of `calculate_prediction_drift`. -/
structure PredictionDriftResult where
  baseline_approval_rate : ℚ
  current_approval_rate : ℚ
  rate_change : ℚ
  rate_change_percent : ℚ
  significant_change : Bool
deriving DecidableEq

/-- drift_detection.calculate_prediction_drift; the baseline dataset
is external, so its approval rate is a parameter. -/
def calculate_prediction_drift (baselineRate : ℚ) (D : List Record) : PredictionDriftResult :=
  let cur := meanQ (D.map Record.prediction)
  let change := cur - baselineRate
  let pct := change / baselineRate * 100
  { baseline_approval_rate := roundTo 3 baselineRate
    current_approval_rate := roundTo 3 cur
    rate_change := roundTo 3 change
    rate_change_percent := roundTo 1 pct
    significant_change := decide (|change| > 5 / 100) }

/-- The four per-feature KS drift flags (age, income, credit_score,
debt_ratio); the p-values come from scipy, so the flags are inputs to
the embedded scoring core. -/
structure KSFlags where
  age : Bool
  income : Bool
  credit_score : Bool
  debt_ratio : Bool
deriving DecidableEq

/-- Count of features whose KS test flagged drift. -/
def featuresWithDrift (k : KSFlags) : Nat :=
  (if k.age then 1 else 0) + (if k.income then 1 else 0) +
  (if k.credit_score then 1 else 0) + (if k.debt_ratio then 1 else 0)

/-- Names of the drifted features, for the report and the drift
recommendations. -/
def driftedFeatureNames (k : KSFlags) : List String :=
  (if k.age then ["age"] else []) ++ (if k.income then ["income"] else []) ++
  (if k.credit_score then ["credit_score"] else []) ++
  (if k.debt_ratio then ["debt_ratio"] else [])

/-- Result of `calculate_drift_risk_score`; `drifted_features` keeps
the feature names (the mean-shift and statistic values riding along in
the source are presentational). -/
structure DriftResult where
  drift_risk_score : ℚ
  severity : String
  accuracy_drift : AccuracyDriftResult
  prediction_drift : PredictionDriftResult
  features_with_drift : Nat
  drifted_features : List String
deriving DecidableEq

/-- The unrounded total drift score: feature component
`(count/4)*40`, accuracy component `min(40, accuracy_drop_percent*4)`
and prediction component `min(20, |rate_change_percent|*2)`, the last
two computed from the rounded percent fields exactly as the source
reads them back from the sub-result dicts. -/
def driftRiskRaw (k : KSFlags) (baselineRate : ℚ) (D : List Record) : ℚ :=
  let ad := calculate_accuracy_drift D
  let pdr := calculate_prediction_drift baselineRate D
  let feature_drift_score := ((featuresWithDrift k : ℚ) / 4) * 40
  let accuracy_drop_score := min 40 (ad.accuracy_drop_percent * 4)
  let prediction_shift_score := min 20 (|pdr.rate_change_percent| * 2)
  feature_drift_score + accuracy_drop_score + prediction_shift_score

/-- drift_detection.calculate_drift_risk_score. -/
def calculate_drift_risk_score (k : KSFlags) (baselineRate : ℚ) (D : List Record) : DriftResult :=
  let total := driftRiskRaw k baselineRate D
  { drift_risk_score := roundTo 1 total
    severity := if total < 20 then "Low" else if total < 40 then "Moderate"
                else if total < 60 then "High" else "Critical"
    accuracy_drift := calculate_accuracy_drift D
    prediction_drift := calculate_prediction_drift baselineRate D
    features_with_drift := featuresWithDrift k
    drifted_features := driftedFeatureNames k }

/-- The five key features checked by
`calculate_feature_importance_coverage`. -/
def keyFeatures : List String :=
  ["age", "income", "credit_score", "debt_ratio", "employment_type"]

/-- The columns of the fixed schema every `Record` carries. -/
def schemaColumns : List String :=
  ["customer_id", "age", "gender", "income", "credit_score",
   "employment_type", "debt_ratio", "prediction", "actual_outcome"]

/-- Documentation coverage percent: presence count of the key features
over their total (the per-feature variance/correlation analysis of the
source only fills presentational fields). -/
def documentationCoverage : ℚ :=
  ((keyFeatures.filter (fun f => schemaColumns.contains f)).length : ℚ) /
    (keyFeatures.length : ℚ) * 100

/-- The employment-type weight map of
`calculate_decision_transparency`; an unmapped value is NaN. -/
def employmentWeight (e : String) : Option ℚ :=
  if e = "Full-time" then some 1
  else if e = "Part-time" then some (6 / 10)
  else if e = "Self-employed" then some (7 / 10)
  else if e = "Unemployed" then some (2 / 10)
  else none

/-- The simulated per-row approval score of
`calculate_decision_transparency`; NaN when the employment type is
unmapped. -/
def approvalScore (r : Record) : Option ℚ :=
  (employmentWeight r.employment_type).map
    (fun w => 3 / 10 * ((r.credit_score - 300) / 550) +
              25 / 100 * ((r.income - 20000) / 180000) +
              25 / 100 * (1 - r.debt_ratio) + 2 / 10 * w)

/-- Fraction of rows whose approval score lies strictly inside
(0.4, 0.6); a NaN score fails both comparisons in Python and is not
counted. -/
def nearBoundaryFrac (D : List Record) : ℚ :=
  meanQ (D.map (fun r =>
    match approvalScore r with
    | some s => if 4 / 10 < s ∧ s < 6 / 10 then (1 : ℚ) else 0
    | none => 0))

/-- Unrounded clarity score `(1 - near_boundary) * 100`. -/
def clarityRaw (D : List Record) : ℚ := (1 - nearBoundaryFrac D) * 100

/-- Fields checked by `calculate_audit_trail_coverage`. -/
def requiredFields : List String := ["customer_id", "prediction", "actual_outcome"]

/-- Optional fields of the audit-trail check. -/
def optionalFields : List String :=
  ["age", "gender", "income", "credit_score", "employment_type", "debt_ratio"]

/-- Audit-trail total coverage: 0.7 weighted required presence plus
0.3 weighted optional presence (all present under the fixed schema). -/
def auditTrailTotalCoverage : ℚ :=
  let req := ((requiredFields.filter (fun f => schemaColumns.contains f)).length : ℚ) /
      (requiredFields.length : ℚ) * 100
  let opt := ((optionalFields.filter (fun f => schemaColumns.contains f)).length : ℚ) /
      (optionalFields.length : ℚ) * 100
  req * (7 / 10) + opt * (3 / 10)

/-- Result of `calculate_explainability_score` (feature/transparency
sub-dicts carry no further computed content under the fixed schema). -/
structure ExplainabilityResult where
  explainability_score : ℚ
  gaps : List String
deriving DecidableEq

/-- Unrounded composite explainability score: the source weighs the
documentation coverage, the rounded clarity score as read back from
the transparency sub-dict, and the audit-trail total coverage. -/
def explainabilityRaw (D : List Record) : ℚ :=
  4 / 10 * documentationCoverage + 35 / 100 * roundTo 1 (clarityRaw D) +
    25 / 100 * auditTrailTotalCoverage

/-- explainability.calculate_explainability_score. -/
def calculate_explainability_score (D : List Record) : ExplainabilityResult :=
  { explainability_score := roundTo 1 (explainabilityRaw D)
    gaps :=
      (if documentationCoverage < 80 then ["Feature importance documentation incomplete"] else []) ++
      (if roundTo 1 (clarityRaw D) < 60 then ["Decision boundaries are unclear"] else []) ++
      (if auditTrailTotalCoverage < 90 then ["Audit trail coverage is insufficient"] else []) }

/-- Result of `calculate_ai_risk_score` (audit_engine.py). -/
structure AIRiskResult where
  score : ℚ
  status : String
  bias_contribution : ℚ
  drift_contribution : ℚ
  explainability_contribution : ℚ
deriving DecidableEq

/-- The clamped composite risk
`min(100, max(0, 0.4*bias + 0.35*drift + 0.25*(100 - explainability)))`
with the weights of config.RISK_WEIGHTS. -/
def aiRiskRaw (b d e : ℚ) : ℚ :=
  min 100 (max 0 (4 / 10 * b + 35 / 100 * d + 25 / 100 * (100 - e)))

/-- audit_engine.calculate_ai_risk_score: the status bands compare the
unrounded clamped score against config.RISK_THRESHOLDS, the reported
score is rounded to one decimal. -/
def calculate_ai_risk_score (b d e : ℚ) : AIRiskResult :=
  let s := aiRiskRaw b d e
  { score := roundTo 1 s
    status := if s ≤ 40 then "PASS" else if s ≤ 70 then "WARNING" else "FAIL"
    bias_contribution := roundTo 1 (4 / 10 * b)
    drift_contribution := roundTo 1 (35 / 100 * d)
    explainability_contribution := roundTo 1 (25 / 100 * (100 - e)) }

/-- A recommendation entry: id, severity, category (title,
description, action, impact and effort are presentational strings). -/
structure Reco where
  id : String
  severity : String
  category : String
deriving DecidableEq

/-- recommendations.generate_bias_recommendations. -/
def generate_bias_recommendations (b : BiasResult) : List Reco :=
  (if 70 < b.bias_risk_score then [⟨"BIAS_001", "Critical", "Bias"⟩] else []) ++
  (if b.violations.any (fun v => v.vtype == "Gender Disparate Impact") then
     [⟨"BIAS_002", "Critical", "Bias"⟩] else []) ++
  (if b.income_proxy.proxy_detected then [⟨"BIAS_003", "High", "Bias"⟩] else []) ++
  (if 40 < b.bias_risk_score ∧ b.bias_risk_score ≤ 70 then
     [⟨"BIAS_004", "Moderate", "Bias"⟩] else [])

/-- recommendations.generate_drift_recommendations. -/
def generate_drift_recommendations (d : DriftResult) : List Reco :=
  (if 60 < d.drift_risk_score then [⟨"DRIFT_001", "Critical", "Drift"⟩] else []) ++
  (if ¬ d.drifted_features.isEmpty then [⟨"DRIFT_002", "High", "Drift"⟩] else []) ++
  (if d.accuracy_drift.significant_drop then [⟨"DRIFT_003", "High", "Drift"⟩] else []) ++
  (if 30 < d.drift_risk_score ∧ d.drift_risk_score ≤ 60 then
     [⟨"DRIFT_004", "Moderate", "Drift"⟩] else [])

/-- recommendations.generate_explainability_recommendations. -/
def generate_explainability_recommendations (e : ExplainabilityResult) : List Reco :=
  (if e.explainability_score < 60 then [⟨"EXPLAIN_001", "High", "Explainability"⟩] else []) ++
  (if e.gaps.contains "Feature importance documentation incomplete" then
     [⟨"EXPLAIN_002", "Moderate", "Explainability"⟩] else []) ++
  (if e.gaps.contains "Decision boundaries are unclear" then
     [⟨"EXPLAIN_003", "Moderate", "Explainability"⟩] else [])

/-- The overall deployment-at-risk recommendation (ai_risk_score > 70). -/
def generalCritical : Reco := ⟨"GENERAL_001", "Critical", "Overall"⟩

/-- The overall increase-monitoring recommendation
(50 < ai_risk_score ≤ 70). -/
def generalMonitor : Reco := ⟨"GENERAL_002", "Moderate", "Overall"⟩

/-- The collected recommendation list before sorting: the three rule
blocks, with the critical overall item prepended when the composite
score exceeds 70, else the monitoring item appended when it exceeds
50. -/
def allRecsUnsorted (b : BiasResult) (d : DriftResult) (e : ExplainabilityResult)
    (s : ℚ) : List Reco :=
  let base := generate_bias_recommendations b ++ generate_drift_recommendations d ++
    generate_explainability_recommendations e
  if 70 < s then generalCritical :: base
  else if 50 < s then base ++ [generalMonitor]
  else base

/-- `severity_order.get(sev, 4)`: rank of a severity label, unknown
labels defaulting to 4 (after Low). -/
def severityRank (s : String) : Nat :=
  if s = "Critical" then 0 else if s = "High" then 1
  else if s = "Moderate" then 2 else if s = "Low" then 3 else 4

/-- Rank of a recommendation. -/
def recRank (r : Reco) : Nat := severityRank r.severity

/-- The stable sort by severity rank: Python `list.sort(key=...)` is
stable, which for the five-valued rank key is exactly bucket
concatenation in rank order — items of equal rank keep their original
relative order. -/
def severitySort (l : List Reco) : List Reco :=
  (l.filter (fun r => recRank r == 0)) ++ (l.filter (fun r => recRank r == 1)) ++
  (l.filter (fun r => recRank r == 2)) ++ (l.filter (fun r => recRank r == 3)) ++
  (l.filter (fun r => recRank r == 4))

/-- recommendations.generate_all_recommendations. -/
def generate_all_recommendations (b : BiasResult) (d : DriftResult)
    (e : ExplainabilityResult) (s : ℚ) : List Reco :=
  severitySort (allRecsUnsorted b d e s)

/-- Row builder for concrete test datasets: fixed credit score 750,
debt ratio 0.3 and full-time employment, which no bias or drift
computation in the verified claims depends on. -/
def mkRec (age : Int) (g : String) (inc pred act : ℚ) : Record :=
  ⟨0, age, g, inc, 750, "Full-time", 3 / 10, pred, act⟩

/-- C9 dataset: 404 females of whom 323 are approved (rate 323/404 ≈
0.79951) and one approved male (rate 1); the raw gender DI ratio lies
in [0.7995, 0.8). -/
def diMaskD : List Record :=
  List.replicate 323 (mkRec 25 "Female" 1000 1 1) ++
  List.replicate 81 (mkRec 25 "Female" 1000 0 0) ++ [mkRec 25 "Male" 1000 1 1]

/-- C8 dataset: a denied 18-year-old, an approved 19-year-old and an
approved 35-year-old. -/
def ageEdgeD : List Record :=
  [mkRec 18 "Male" 1000 0 0, mkRec 19 "Male" 1000 1 1, mkRec 35 "Male" 1000 1 1]

/-- C4 / spec-scenario dataset: male approval rate 0.60 (3 of 5),
female approval rate 0.40 (2 of 5). -/
def scenarioD : List Record :=
  [mkRec 25 "Male" 1000 1 1, mkRec 25 "Male" 1000 1 1, mkRec 25 "Male" 1000 1 1,
   mkRec 25 "Male" 1000 0 0, mkRec 25 "Male" 1000 0 0,
   mkRec 25 "Female" 1000 1 1, mkRec 25 "Female" 1000 1 1,
   mkRec 25 "Female" 1000 0 0, mkRec 25 "Female" 1000 0 0, mkRec 25 "Female" 1000 0 0]

/-- C1 dataset: two rows, both predicted correctly (accuracy 1.0 >
baseline 0.87), approval rate 0.5. -/
def perfectAccD : List Record :=
  [mkRec 25 "Male" 1000 1 1, mkRec 25 "Male" 1000 0 0]

/-- C7 scenario dataset: 3 of 4 rows predicted correctly (accuracy
0.75). -/
def accScenarioD : List Record :=
  [mkRec 25 "Male" 1000 1 1, mkRec 25 "Male" 1000 1 1,
   mkRec 25 "Female" 1000 1 1, mkRec 25 "Female" 1000 1 0]

/-- C6 counterexample, before: male rate 1/4 (denied males earn 1000),
female rate 3/4 (the one denied female earns 2000, so the income-proxy
flag fires). -/
def proxyFlipD : List Record :=
  [mkRec 25 "Male" 1000 1 1, mkRec 25 "Male" 1000 0 0, mkRec 25 "Male" 1000 0 0,
   mkRec 25 "Male" 1000 0 0,
   mkRec 25 "Female" 0 1 1, mkRec 25 "Female" 1000 1 1, mkRec 25 "Female" 1000 1 1,
   mkRec 25 "Female" 2000 0 0]

/-- C6 counterexample, after: identical except the zero-income female
is now denied — the female rate drops to 2/4, the denied-female mean
income drops to 1000 and the proxy flag clears. -/
def proxyFlipDp : List Record :=
  [mkRec 25 "Male" 1000 1 1, mkRec 25 "Male" 1000 0 0, mkRec 25 "Male" 1000 0 0,
   mkRec 25 "Male" 1000 0 0,
   mkRec 25 "Female" 0 0 0, mkRec 25 "Female" 1000 1 1, mkRec 25 "Female" 1000 1 1,
   mkRec 25 "Female" 2000 0 0]

/-- Minimal two-gender dataset (one approved male, one approved
female), used to instantiate universally quantified theorems. -/
def twoGroupD : List Record :=
  [mkRec 25 "Male" 1000 1 1, mkRec 25 "Female" 1000 1 1]

/-- Variant of `twoGroupD` with the female denied. -/
def twoGroupDp : List Record :=
  [mkRec 25 "Male" 1000 1 1, mkRec 25 "Female" 1000 0 0]

/-- Single-row dataset with a wrong prediction (accuracy 0), used to
instantiate universally quantified theorems. -/
def oneRowWrongD : List Record := [mkRec 25 "Male" 1000 1 0]

theorem roundTo_mono (n : Nat) {x y : ℚ} (h : x ≤ y) : roundTo n x ≤ roundTo n y := by
  unfold roundTo
  have h10 : (0 : ℚ) < 10 ^ n := by positivity
  have hr : round (x * 10 ^ n) ≤ round (y * 10 ^ n) := by
    rw [round_eq, round_eq]
    exact Int.floor_mono (by nlinarith)
  have hc : ((round (x * 10 ^ n) : ℤ) : ℚ) ≤ ((round (y * 10 ^ n) : ℤ) : ℚ) := by
    exact_mod_cast hr
  gcongr

theorem roundTo_intCast (n : Nat) (m : ℤ) : roundTo n ((m : ℚ)) = m := by
  unfold roundTo
  have hx : ((m : ℚ) * 10 ^ n) = (((m * 10 ^ n : ℤ) : ℚ)) := by push_cast; ring
  rw [hx, round_intCast]
  have h10 : (10 : ℚ) ^ n ≠ 0 := by positivity
  push_cast
  field_simp

theorem intCast_le_roundTo (n : Nat) (m : ℤ) {x : ℚ} (h : (m : ℚ) ≤ x) :
    (m : ℚ) ≤ roundTo n x := by
  calc (m : ℚ) = roundTo n ((m : ℚ)) := (roundTo_intCast n m).symm
    _ ≤ roundTo n x := roundTo_mono n h

theorem roundTo_le_intCast (n : Nat) (m : ℤ) {x : ℚ} (h : x ≤ (m : ℚ)) :
    roundTo n x ≤ (m : ℚ) := by
  calc roundTo n x ≤ roundTo n ((m : ℚ)) := roundTo_mono n h
    _ = (m : ℚ) := roundTo_intCast n m

theorem le_foldl_max (x : ℚ) (l : List ℚ) : x ≤ l.foldl max x := by
  induction l generalizing x with
  | nil => simp
  | cons y ys ih =>
    calc x ≤ max x y := le_max_left x y
      _ ≤ (ys.foldl max (max x y)) := ih (max x y)
      _ = ((y :: ys).foldl max x) := rfl

theorem mem_le_foldl_max (x : ℚ) (l : List ℚ) : ∀ z ∈ l, z ≤ l.foldl max x := by
  induction l generalizing x with
  | nil => simp
  | cons y ys ih =>
    intro z hz
    rcases List.mem_cons.1 hz with h | h
    · subst h
      calc z ≤ max x z := le_max_right x z
        _ ≤ ys.foldl max (max x z) := le_foldl_max _ _
        _ = (z :: ys).foldl max x := rfl
    · exact ih (max x y) z h

theorem foldl_max_mem (x : ℚ) (l : List ℚ) : l.foldl max x = x ∨ l.foldl max x ∈ l := by
  induction l generalizing x with
  | nil => simp
  | cons y ys ih =>
    rcases ih (max x y) with h | h
    · rcases max_choice x y with hc | hc
      · left
        simpa [hc] using h
      · right
        simp only [List.foldl_cons]
        rw [h, hc]
        exact List.mem_cons_self y ys
    · right
      exact List.mem_cons_of_mem y h

theorem foldl_min_le (x : ℚ) (l : List ℚ) : l.foldl min x ≤ x := by
  induction l generalizing x with
  | nil => simp
  | cons y ys ih =>
    calc ((y :: ys).foldl min x) = ys.foldl min (min x y) := rfl
      _ ≤ min x y := ih (min x y)
      _ ≤ x := min_le_left x y

theorem foldl_min_le_mem (x : ℚ) (l : List ℚ) : ∀ z ∈ l, l.foldl min x ≤ z := by
  induction l generalizing x with
  | nil => simp
  | cons y ys ih =>
    intro z hz
    rcases List.mem_cons.1 hz with h | h
    · subst h
      calc (z :: ys).foldl min x = ys.foldl min (min x z) := rfl
        _ ≤ min x z := foldl_min_le _ _
        _ ≤ z := min_le_right x z
    · exact ih (min x y) z h

theorem foldl_min_mem (x : ℚ) (l : List ℚ) : l.foldl min x = x ∨ l.foldl min x ∈ l := by
  induction l generalizing x with
  | nil => simp
  | cons y ys ih =>
    rcases ih (min x y) with h | h
    · rcases min_choice x y with hc | hc
      · left
        simpa [hc] using h
      · right
        simp only [List.foldl_cons]
        rw [h, hc]
        exact List.mem_cons_self y ys
    · right
      exact List.mem_cons_of_mem y h

theorem listMax_mem {l : List ℚ} (h : l ≠ []) : listMax l ∈ l := by
  match l with
  | [] => exact absurd rfl h
  | x :: xs =>
    rcases foldl_max_mem x xs with h1 | h1
    · rw [listMax, h1]
      exact List.mem_cons_self x xs
    · exact List.mem_cons_of_mem x (by rw [listMax]; exact h1)

theorem le_listMax {l : List ℚ} : ∀ z ∈ l, z ≤ listMax l := by
  match l with
  | [] => simp
  | x :: xs =>
    intro z hz
    rcases List.mem_cons.1 hz with h | h
    · subst h
      exact le_foldl_max z xs
    · exact mem_le_foldl_max x xs z h

theorem listMin_mem {l : List ℚ} (h : l ≠ []) : listMin l ∈ l := by
  match l with
  | [] => exact absurd rfl h
  | x :: xs =>
    rcases foldl_min_mem x xs with h1 | h1
    · rw [listMin, h1]
      exact List.mem_cons_self x xs
    · exact List.mem_cons_of_mem x (by rw [listMin]; exact h1)

theorem listMin_le {l : List ℚ} : ∀ z ∈ l, listMin l ≤ z := by
  match l with
  | [] => simp
  | x :: xs =>
    intro z hz
    rcases List.mem_cons.1 hz with h | h
    · subst h
      exact foldl_min_le z xs
    · exact foldl_min_le_mem x xs z h

theorem sum_indicator_eq_countP (p : Record → Bool) (l : List Record) :
    (l.map (fun r => if p r then (1 : ℚ) else 0)).sum = ((l.countP p : Nat) : ℚ) := by
  induction l with
  | nil => simp
  | cons a l ih =>
    by_cases h : p a
    · simp [List.countP_cons, h, ih]
      ring
    · simp [List.countP_cons, h, ih]

theorem meanQ_nonneg {l : List ℚ} (h : ∀ x ∈ l, 0 ≤ x) : 0 ≤ meanQ l := by
  unfold meanQ
  exact div_nonneg (List.sum_nonneg h) (by positivity)

theorem meanQ_le_one {l : List ℚ} (hne : l ≠ []) (h : ∀ x ∈ l, x ≤ 1) : meanQ l ≤ 1 := by
  unfold meanQ
  have hlen : (0 : ℚ) < l.length := by
    have : 0 < l.length := List.length_pos.2 hne
    exact_mod_cast this
  rw [div_le_one hlen]
  calc l.sum ≤ l.length • (1 : ℚ) := List.sum_le_card_nsmul l 1 h
    _ = l.length := by simp

/-- C2: for all component inputs, the composite AI risk score is the
clamp to [0,100] of 0.40·bias + 0.35·drift + 0.25·(100 −
explainability) (reported rounded to one decimal), the status is PASS
iff that clamped score is ≤ 40, WARNING iff it is in (40, 70], FAIL
iff it exceeds 70; and the scenario bias=72, drift=10,
explainability=90 yields score 34.8 with status PASS. -/
theorem C2_composite_score_and_status :
    (∀ b d e : ℚ,
      (calculate_ai_risk_score b d e).score =
        roundTo 1 (min 100 (max 0 (4 / 10 * b + 35 / 100 * d + 25 / 100 * (100 - e)))) ∧
      ((calculate_ai_risk_score b d e).status = "PASS" ↔
        min 100 (max 0 (4 / 10 * b + 35 / 100 * d + 25 / 100 * (100 - e))) ≤ 40) ∧
      ((calculate_ai_risk_score b d e).status = "WARNING" ↔
        40 < min 100 (max 0 (4 / 10 * b + 35 / 100 * d + 25 / 100 * (100 - e))) ∧
          min 100 (max 0 (4 / 10 * b + 35 / 100 * d + 25 / 100 * (100 - e))) ≤ 70) ∧
      ((calculate_ai_risk_score b d e).status = "FAIL" ↔
        70 < min 100 (max 0 (4 / 10 * b + 35 / 100 * d + 25 / 100 * (100 - e))))) ∧
    (calculate_ai_risk_score 72 10 90).score = 348 / 10 ∧
    (calculate_ai_risk_score 72 10 90).status = "PASS" := by
  have hraw : aiRiskRaw 72 10 90 = 348 / 10 := by
    norm_num [aiRiskRaw, min_def, max_def]
  refine ⟨fun b d e => ?_,
    by norm_num [calculate_ai_risk_score, hraw, roundTo, round_eq],
    by norm_num [calculate_ai_risk_score, hraw]⟩
  unfold calculate_ai_risk_score aiRiskRaw
  set s := min 100 (max 0 (4 / 10 * b + 35 / 100 * d + 25 / 100 * (100 - e))) with hs
  refine ⟨rfl, ?_, ?_, ?_⟩
  · constructor
    · intro h
      by_contra hc
      push_neg at hc
      simp only [if_neg (not_le.2 hc)] at h
      split_ifs at h <;> simp_all
    · intro h
      simp [if_pos h]
  · constructor
    · intro h
      by_cases h1 : s ≤ 40
      · simp [if_pos h1] at h
      · by_cases h2 : s ≤ 70
        · exact ⟨not_le.1 h1, h2⟩
        · simp [if_neg h1, if_neg h2] at h
    · intro ⟨h1, h2⟩
      simp [if_neg (not_le.2 h1), if_pos h2]
  · constructor
    · intro h
      by_cases h1 : s ≤ 40
      · simp [if_pos h1] at h
      · by_cases h2 : s ≤ 70
        · simp [if_neg h1, if_pos h2] at h
        · exact not_le.1 h2
    · intro h
      simp [if_neg (not_le.2 (by linarith : (40:ℚ) < s)), if_neg (not_le.2 h)]

/-- C7: on any nonempty dataset the current accuracy is the fraction
of rows whose prediction equals the actual outcome, the accuracy drop
is 0.87 minus that accuracy, and the significant flag fires iff the
(unrounded) drop exceeds 0.05; on the scenario dataset with accuracy
0.75 the drop is 0.12, the reported drop percent is 13.8 (the
unrounded percent is within 0.01 of 13.79) and the flag is true. -/
theorem C7_accuracy_drift_spec :
    (∀ D : List Record, D ≠ [] →
      currentAccuracyRaw D =
        ((D.countP (fun r => r.prediction == r.actual_outcome) : Nat) : ℚ) / (D.length : ℚ) ∧
      (calculate_accuracy_drift D).accuracy_drop =
        roundTo 3 (87 / 100 - currentAccuracyRaw D) ∧
      ((calculate_accuracy_drift D).significant_drop = true ↔
        5 / 100 < 87 / 100 - currentAccuracyRaw D)) ∧
    currentAccuracyRaw accScenarioD = 3 / 4 ∧
    (calculate_accuracy_drift accScenarioD).accuracy_drop = 12 / 100 ∧
    (calculate_accuracy_drift accScenarioD).accuracy_drop_percent = 138 / 10 ∧
    |(87 / 100 - currentAccuracyRaw accScenarioD) / (87 / 100) * 100 - 1379 / 100| < 1 / 100 ∧
    (calculate_accuracy_drift accScenarioD).significant_drop = true := by
  have hacc : currentAccuracyRaw accScenarioD = 3 / 4 := by
    norm_num [currentAccuracyRaw, accScenarioD, mkRec, meanQ]
  refine ⟨fun D hD => ⟨?_, rfl, ?_⟩, hacc, ?_, ?_, ?_, ?_⟩
  · unfold currentAccuracyRaw meanQ
    congr 1
    · have heq : (D.map (fun r => if r.prediction = r.actual_outcome then (1 : ℚ) else 0)) =
          (D.map (fun r => if (fun r : Record => r.prediction == r.actual_outcome) r
            then (1 : ℚ) else 0)) := by
        apply List.map_congr_left
        intro r _
        by_cases h : r.prediction = r.actual_outcome <;> simp [h]
      rw [heq, sum_indicator_eq_countP]
    · simp
  · simp [calculate_accuracy_drift, BASELINE_ACCURACY, decide_eq_true_eq, gt_iff_lt]
  · norm_num [calculate_accuracy_drift, hacc, BASELINE_ACCURACY, roundTo, round_eq]
  · norm_num [calculate_accuracy_drift, hacc, BASELINE_ACCURACY, roundTo, round_eq]
  · rw [hacc, show (87 / 100 - (3 : ℚ) / 4) / (87 / 100) * 100 - 1379 / 100 = 9 / 2900 by
      norm_num, abs_of_nonneg (by norm_num)]
    norm_num
  · norm_num [calculate_accuracy_drift, hacc, BASELINE_ACCURACY]

/-- C7 witness: the general accuracy-drift facts instantiated at the
concrete scenario dataset. -/
theorem C7_accuracy_drift_spec_witness :
    currentAccuracyRaw accScenarioD =
      ((accScenarioD.countP (fun r => r.prediction == r.actual_outcome) : Nat) : ℚ) /
        (accScenarioD.length : ℚ) ∧
    (calculate_accuracy_drift accScenarioD).accuracy_drop =
      roundTo 3 (87 / 100 - currentAccuracyRaw accScenarioD) ∧
    ((calculate_accuracy_drift accScenarioD).significant_drop = true ↔
      5 / 100 < 87 / 100 - currentAccuracyRaw accScenarioD) :=
  C7_accuracy_drift_spec.1 accScenarioD (by simp [accScenarioD])

/-- C10: whenever the denied-male or the denied-female subgroup is
empty, the income-proxy detector returns normally with
`proxy_detected = false` — the empty-subgroup mean is NaN and the
strict comparison against it is False. -/
theorem C10_income_proxy_empty_subgroup (D : List Record)
    (h : D.filter (fun r => r.gender == "Male" && r.prediction == (0 : ℚ)) = [] ∨
         D.filter (fun r => r.gender == "Female" && r.prediction == (0 : ℚ)) = []) :
    (detect_income_proxy_bias D).proxy_detected = false := by
  unfold detect_income_proxy_bias
  rcases h with h | h
  · have hm : subgroupIncomeMean D "Male" 0 = none := by
      unfold subgroupIncomeMean
      rw [h]
      simp [meanOpt]
    simp only [hm]
    cases subgroupIncomeMean D "Female" 0 <;> rfl
  · have hf : subgroupIncomeMean D "Female" 0 = none := by
      unfold subgroupIncomeMean
      rw [h]
      simp [meanOpt]
    simp only [hf]
    cases subgroupIncomeMean D "Male" 0 <;> rfl

/-- C10 witness: a dataset whose only denied row is male (so the
denied-female subgroup is empty) gets no proxy flag. -/
theorem C10_income_proxy_empty_subgroup_witness :
    (detect_income_proxy_bias oneRowWrongD).proxy_detected = false :=
  C10_income_proxy_empty_subgroup oneRowWrongD
    (Or.inr (by simp [oneRowWrongD, mkRec]))

/-- C8 counterexample: the claim places age exactly 18 in the first
bin, but `pd.cut` with bins [18,30,45,60,100] builds left-open
intervals, so an 18-year-old is in no bucket; on the dataset with a
denied 18-year-old, an approved 19-year-old and an approved
35-year-old the computed first-bucket rate is 1 (the denial is
ignored), the ratio is 1 and no violation fires — under the claimed
[18,30] bin the first-bucket rate would be 1/2 and a violation would
fire. -/
theorem C8_age18_counterexample :
    ageBucket 18 = none ∧ ageBucket 18 ≠ some "18-30" ∧
    meanQ ((ageEdgeD.filter (fun r => ageBucket r.age == some "18-30")).map
      Record.prediction) = 1 ∧
    (calculate_age_group_bias ageEdgeD).di_ratio = 1 ∧
    (calculate_age_group_bias ageEdgeD).violation = false := by
  have h18 : ageBucket 18 = none := by norm_num [ageBucket]
  have h19 : ageBucket 19 = some "18-30" := by norm_num [ageBucket]
  have h35 : ageBucket 35 = some "31-45" := by norm_num [ageBucket]
  have hvalid : validAgeRates ageEdgeD = [1, 1] := by
    simp [validAgeRates, ageRates, bucketNames, ageEdgeD, mkRec, h18, h19, h35,
      meanOpt, meanQ]
  have hraw : ageDIRaw ageEdgeD = 1 := by
    simp only [ageDIRaw, hvalid, omaxQ, ominQ]
    norm_num
  refine ⟨h18, by simp [h18], ?_, ?_, ?_⟩
  · simp [ageEdgeD, mkRec, h18, h19, h35, meanQ]
  · simp only [calculate_age_group_bias, hraw]
    norm_num [roundTo, round_eq]
  · simp only [calculate_age_group_bias, hraw]
    norm_num [DI_THRESHOLD]

/-- C8 (amended): ages are bucketed into the left-open bins (18,30],
(30,45], (45,60], (60,100] — age exactly 18 (or below, or above 100)
belongs to no bin and is dropped; the ratio is min bucket rate over
max bucket rate when the max is positive, 1 when the max is
nonpositive or every bucket is empty; the reported ratio is rounded
to 3 decimals and the violation flag fires iff the unrounded ratio is
below 0.8; each reported bucket rate is the mean prediction of the
rows the bin captures. -/
theorem C8_age_bins_amended :
    (∀ a : Int,
      ((ageBucket a = some "18-30") ↔ 18 < a ∧ a ≤ 30) ∧
      ((ageBucket a = some "31-45") ↔ 30 < a ∧ a ≤ 45) ∧
      ((ageBucket a = some "46-60") ↔ 45 < a ∧ a ≤ 60) ∧
      ((ageBucket a = some "60+") ↔ 60 < a ∧ a ≤ 100) ∧
      (ageBucket a = none ↔ a ≤ 18 ∨ 100 < a)) ∧
    (∀ D : List Record,
      ((calculate_age_group_bias D).violation = true ↔ ageDIRaw D < DI_THRESHOLD) ∧
      (calculate_age_group_bias D).di_ratio = roundTo 3 (ageDIRaw D)) ∧
    (∀ (D : List Record) (M m : ℚ), omaxQ (validAgeRates D) = some M →
      ominQ (validAgeRates D) = some m → 0 < M → ageDIRaw D = m / M) ∧
    (∀ (D : List Record) (M : ℚ), omaxQ (validAgeRates D) = some M → M ≤ 0 →
      ageDIRaw D = 1) ∧
    (∀ D : List Record, omaxQ (validAgeRates D) = none → ageDIRaw D = 1) ∧
    (∀ (D : List Record) (b : String) (q : ℚ), (b, some q) ∈ ageRates D →
      q = meanQ ((D.filter (fun r => ageBucket r.age == some b)).map Record.prediction)) := by
  refine ⟨?_, ?_, ?_, ?_, ?_, ?_⟩
  · intro a
    unfold ageBucket
    split_ifs with h1 h2 h3 h4 <;>
      refine ⟨?_, ?_, ?_, ?_, ?_⟩ <;> simp_all <;> omega
  · intro D
    exact ⟨by simp [calculate_age_group_bias, decide_eq_true_eq], rfl⟩
  · intro D M m hM hm hpos
    simp only [ageDIRaw, hM, hm]
    exact if_pos hpos
  · intro D M hM hle
    have hm : ∃ m, ominQ (validAgeRates D) = some m := by
      unfold omaxQ at hM
      unfold ominQ
      match hl : validAgeRates D with
      | [] => rw [hl] at hM; exact absurd hM (by simp)
      | x :: xs => exact ⟨_, rfl⟩
    obtain ⟨m, hm⟩ := hm
    simp only [ageDIRaw, hM, hm]
    exact if_neg (not_lt.2 hle)
  · intro D hM
    have hm : ominQ (validAgeRates D) = none := by
      unfold omaxQ at hM
      unfold ominQ
      match hl : validAgeRates D with
      | [] => rfl
      | x :: xs => rw [hl] at hM; exact absurd hM (by simp)
    simp only [ageDIRaw, hM, hm]
  · intro D b q hmem
    simp only [ageRates, List.mem_map] at hmem
    obtain ⟨b', _, heq⟩ := hmem
    have hb : b' = b := congrArg Prod.fst heq
    have hq : meanOpt ((D.filter (fun r => ageBucket r.age == some b')).map
        Record.prediction) = some q := congrArg Prod.snd heq
    rw [hb] at hq
    unfold meanOpt at hq
    split at hq
    · exact absurd hq (by simp)
    · exact (Option.some.injEq _ _ ▸ hq).symm

/-- C8 witness: the min/max ratio characterization applied to the
concrete dataset whose two occupied buckets both have rate 1. -/
theorem C8_age_bins_amended_witness : ageDIRaw ageEdgeD = 1 / 1 := by
  have h18 : ageBucket 18 = none := by norm_num [ageBucket]
  have h19 : ageBucket 19 = some "18-30" := by norm_num [ageBucket]
  have h35 : ageBucket 35 = some "31-45" := by norm_num [ageBucket]
  have hvalid : validAgeRates ageEdgeD = [1, 1] := by
    simp [validAgeRates, ageRates, bucketNames, ageEdgeD, mkRec, h18, h19, h35,
      meanOpt, meanQ]
  exact C8_age_bins_amended.2.2.1 ageEdgeD 1 1
    (by rw [hvalid]; simp [omaxQ]) (by rw [hvalid]; simp [ominQ]) (by norm_num)

/-- Unfolding of the gender disparate-impact result when at least two
gender groups exist: privileged is the Male lookup, unprivileged the
Female lookup, ratio and violation from `diRatioRaw`. -/
theorem calcDI_gender_eq (D : List Record)
    (h : 2 ≤ (groupMeans D Record.gender).length) :
    calculate_disparate_impact D "gender" Record.gender =
      { di_ratio := roundTo 3 (diRatioRaw (lookupD (groupMeans D Record.gender) "Male")
          (lookupD (groupMeans D Record.gender) "Female"))
        violation := decide (diRatioRaw (lookupD (groupMeans D Record.gender) "Male")
          (lookupD (groupMeans D Record.gender) "Female") < DI_THRESHOLD)
        privileged_group := "Male"
        privileged_rate := roundTo 3 (lookupD (groupMeans D Record.gender) "Male")
        unprivileged_group := "Female"
        unprivileged_rate := roundTo 3 (lookupD (groupMeans D Record.gender) "Female") } := by
  unfold calculate_disparate_impact
  rw [if_neg (by omega)]
  simp [diPriv, diUnpriv]

/-- The gender group means of the C4 scenario dataset: Male 0.6,
Female 0.4. -/
theorem scenarioD_groupMeans :
    groupMeans scenarioD Record.gender = [("Male", 3 / 5), ("Female", 2 / 5)] := by
  simp [groupMeans, keysOf, scenarioD, mkRec, meanQ]
  norm_num

/-- The full gender disparate-impact result of the scenario dataset:
raw ratio 2/3, reported ratio 0.667, violation true. -/
theorem scenarioD_gender_di :
    calculate_disparate_impact scenarioD "gender" Record.gender =
      ⟨667 / 1000, true, "Male", 3 / 5, "Female", 2 / 5⟩ := by
  have h := calcDI_gender_eq scenarioD (by rw [scenarioD_groupMeans]; norm_num)
  rw [scenarioD_groupMeans] at h
  rw [h]
  have hlm : lookupD [("Male", (3 : ℚ) / 5), ("Female", 2 / 5)] "Male" = 3 / 5 := rfl
  have hlf : lookupD [("Male", (3 : ℚ) / 5), ("Female", 2 / 5)] "Female" = 2 / 5 := rfl
  have hraw : diRatioRaw ((3 : ℚ) / 5) (2 / 5) = 2 / 3 := by
    rw [diRatioRaw, if_pos (by norm_num)]
    norm_num
  rw [hlm, hlf, hraw]
  have h1 : roundTo 3 ((2 : ℚ) / 3) = 667 / 1000 := by
    norm_num [roundTo, round_eq]
  have h2 : roundTo 3 ((3 : ℚ) / 5) = 3 / 5 := by
    norm_num [roundTo, round_eq]
  have h3 : roundTo 3 ((2 : ℚ) / 5) = 2 / 5 := by
    norm_num [roundTo, round_eq]
  simp [h1, h2, h3, DI_THRESHOLD]
  norm_num

/-- C4 counterexample: on the scenario dataset (Male rate 0.60,
Female rate 0.40) the reported DI ratio is 0.667 with a violation, but
the gender risk equals 76.6 — the code applies the piecewise formula
to the 3-decimal rounded ratio — and not ≈76.67, the value of
50 + (0.8 − ratio)·200 at the unrounded ratio 2/3. -/
theorem C4_gender_risk_counterexample :
    (calculate_disparate_impact scenarioD "gender" Record.gender).di_ratio = 667 / 1000 ∧
    (calculate_disparate_impact scenarioD "gender" Record.gender).violation = true ∧
    genderRiskFun (calculate_disparate_impact scenarioD "gender" Record.gender).di_ratio =
      766 / 10 ∧
    5 / 100 <
      |genderRiskFun (calculate_disparate_impact scenarioD "gender" Record.gender).di_ratio -
        7667 / 100| ∧
    genderRiskFun (calculate_disparate_impact scenarioD "gender" Record.gender).di_ratio ≠
      50 + (DI_THRESHOLD - diRatioRaw (3 / 5) (2 / 5)) * 200 := by
  rw [scenarioD_gender_di]
  have hg : genderRiskFun (667 / 1000) = 766 / 10 := by
    rw [genderRiskFun]
    norm_num [DI_THRESHOLD]
  have hraw : diRatioRaw ((3 : ℚ) / 5) (2 / 5) = 2 / 3 := by
    rw [diRatioRaw, if_pos (by norm_num)]
    norm_num
  refine ⟨rfl, rfl, hg, ?_, ?_⟩
  · rw [hg, show (766 : ℚ) / 10 - 7667 / 100 = -(7 / 100) by norm_num, abs_neg,
      abs_of_nonneg (by norm_num)]
    norm_num
  · rw [hg, hraw]
    norm_num [DI_THRESHOLD]

/-- C4 (amended): the gender risk component is piecewise in the
reported (3-decimal rounded) DI ratio r — max(0, (1−r)·20) when r ≥
0.8 and 50 + (0.8−r)·200 when r < 0.8; on the scenario dataset the
reported ratio is 0.667, the violation fires and the gender risk is
exactly 50 + (0.8 − 0.667)·200 = 76.6 (not 76.67, which would result
from the unrounded ratio 2/3). -/
theorem C4_gender_risk_amended :
    (∀ r : ℚ,
      (DI_THRESHOLD ≤ r → genderRiskFun r = max 0 ((1 - r) * 20)) ∧
      (r < DI_THRESHOLD → genderRiskFun r = 50 + (DI_THRESHOLD - r) * 200)) ∧
    (calculate_disparate_impact scenarioD "gender" Record.gender).di_ratio = 667 / 1000 ∧
    (calculate_disparate_impact scenarioD "gender" Record.gender).violation = true ∧
    genderRiskFun (667 / 1000) = 50 + (DI_THRESHOLD - 667 / 1000) * 200 ∧
    genderRiskFun (667 / 1000) = 766 / 10 := by
  refine ⟨fun r => ⟨fun h => ?_, fun h => ?_⟩, ?_, ?_, ?_, ?_⟩
  · rw [genderRiskFun]
    simp only [if_neg (not_lt.2 h)]
  · rw [genderRiskFun]
    simp only [if_pos h]
  · rw [scenarioD_gender_di]
  · rw [scenarioD_gender_di]
  · rw [genderRiskFun]
    norm_num [DI_THRESHOLD]
  · rw [genderRiskFun]
    norm_num [DI_THRESHOLD]

/-- C4 witness: the below-threshold branch applied at the concrete
reported ratio 0.667. -/
theorem C4_gender_risk_amended_witness :
    genderRiskFun (667 / 1000) = 50 + (DI_THRESHOLD - 667 / 1000) * 200 :=
  (C4_gender_risk_amended.1 (667 / 1000)).2 (by norm_num [DI_THRESHOLD])

/-- C3: with fewer than two groups the result is ratio 1 with no
violation; for the gender column the privileged/unprivileged roles are
fixed to Male/Female regardless of rates and the reported ratio is the
rounded Female/Male lookup ratio; for any other column the privileged
rate is the maximal and the unprivileged rate the minimal group rate;
a zero privileged rate yields ratio 1 and no violation (a defined
policy, not a division error); and the violation flag fires iff the
unrounded ratio is below 0.8. -/
theorem C3_disparate_impact_spec :
    (∀ (D : List Record) (colName : String) (col : Record → String),
      (groupMeans D col).length < 2 →
        (calculate_disparate_impact D colName col).di_ratio = 1 ∧
        (calculate_disparate_impact D colName col).violation = false) ∧
    (∀ (D : List Record), 2 ≤ (groupMeans D Record.gender).length →
      (calculate_disparate_impact D "gender" Record.gender).privileged_group = "Male" ∧
      (calculate_disparate_impact D "gender" Record.gender).unprivileged_group = "Female" ∧
      (calculate_disparate_impact D "gender" Record.gender).di_ratio =
        roundTo 3 (diRatioRaw (lookupD (groupMeans D Record.gender) "Male")
          (lookupD (groupMeans D Record.gender) "Female"))) ∧
    (∀ (D : List Record) (colName : String) (col : Record → String),
      2 ≤ (groupMeans D col).length → colName ≠ "gender" →
      ((diPriv (groupMeans D col) colName).2 ∈ (groupMeans D col).map Prod.snd ∧
        ∀ x ∈ (groupMeans D col).map Prod.snd, x ≤ (diPriv (groupMeans D col) colName).2) ∧
      ((diUnpriv (groupMeans D col) colName).2 ∈ (groupMeans D col).map Prod.snd ∧
        ∀ x ∈ (groupMeans D col).map Prod.snd, (diUnpriv (groupMeans D col) colName).2 ≤ x)) ∧
    (∀ ur : ℚ, diRatioRaw 0 ur = 1 ∧ ¬ diRatioRaw 0 ur < DI_THRESHOLD) ∧
    (∀ (D : List Record) (colName : String) (col : Record → String),
      2 ≤ (groupMeans D col).length →
      ((calculate_disparate_impact D colName col).violation = true ↔
        diRatioRaw (diPriv (groupMeans D col) colName).2
          (diUnpriv (groupMeans D col) colName).2 < DI_THRESHOLD)) := by
  refine ⟨?_, ?_, ?_, ?_, ?_⟩
  · intro D colName col h
    unfold calculate_disparate_impact
    rw [if_pos h]
    exact ⟨rfl, rfl⟩
  · intro D h
    rw [calcDI_gender_eq D h]
    exact ⟨rfl, rfl, rfl⟩
  · intro D colName col hlen hcol
    have hne : (groupMeans D col).map Prod.snd ≠ [] := by
      intro hnil
      have hz : (groupMeans D col).length = 0 := by
        simpa using congrArg List.length hnil
      omega
    unfold diPriv diUnpriv
    rw [if_neg hcol, if_neg hcol]
    exact ⟨⟨listMax_mem hne, le_listMax⟩, ⟨listMin_mem hne, listMin_le⟩⟩
  · intro ur
    constructor
    · rw [diRatioRaw, if_neg (by norm_num)]
    · rw [diRatioRaw, if_neg (by norm_num)]
      norm_num [DI_THRESHOLD]
  · intro D colName col hlen
    unfold calculate_disparate_impact
    rw [if_neg (by omega)]
    simp only [decide_eq_true_eq]

/-- C3 witness: the gender-role and violation facts applied to the
two-row dataset with one approved male and one approved female
(ratio 1, no violation). -/
theorem C3_disparate_impact_spec_witness :
    (calculate_disparate_impact twoGroupD "gender" Record.gender).privileged_group = "Male" ∧
    (calculate_disparate_impact twoGroupD "gender" Record.gender).unprivileged_group =
      "Female" ∧
    (calculate_disparate_impact twoGroupD "gender" Record.gender).di_ratio =
      roundTo 3 (diRatioRaw (lookupD (groupMeans twoGroupD Record.gender) "Male")
        (lookupD (groupMeans twoGroupD Record.gender) "Female")) := by
  have hgm : groupMeans twoGroupD Record.gender = [("Male", 1), ("Female", 1)] := by
    simp [groupMeans, keysOf, twoGroupD, mkRec, meanQ]
  exact C3_disparate_impact_spec.2.1 twoGroupD (by rw [hgm]; norm_num)

theorem filter_replicate_pos {p : Record → Bool} {r : Record} (h : p r = true) (n : Nat) :
    (List.replicate n r).filter p = List.replicate n r := by
  induction n with
  | zero => rfl
  | succ m ih => simp [List.replicate_succ, h, ih]

theorem filter_replicate_neg {p : Record → Bool} {r : Record} (h : p r = false) (n : Nat) :
    (List.replicate n r).filter p = [] := by
  induction n with
  | zero => rfl
  | succ m ih => simp [List.replicate_succ, h, ih]

theorem keysOf_foldl_mem (n : Nat) (k : String) (acc : List String) (h : k ∈ acc) :
    (List.replicate n k).foldl
      (fun acc k => if k ∈ acc then acc else acc ++ [k]) acc = acc := by
  induction n with
  | zero => rfl
  | succ m ih => simp [List.replicate_succ, h, ih]

theorem keysOf_replicate_append (n : Nat) (k k2 : String) (hk : k ≠ k2) :
    keysOf (List.replicate (n + 1) k ++ [k2]) = [k, k2] := by
  unfold keysOf
  rw [List.replicate_succ, List.cons_append, List.foldl_cons]
  have h1 : (if k ∈ ([] : List String) then ([] : List String) else [] ++ [k]) = [k] := by
    simp
  rw [h1, List.foldl_append, keysOf_foldl_mem n k [k] (by simp)]
  simp [hk.symm]

/-- The gender group means of the C9 dataset: Female 323/404 ≈
0.79951, Male 1. -/
theorem diMaskD_groupMeans :
    groupMeans diMaskD Record.gender = [("Female", 323 / 404), ("Male", 1)] := by
  have hmap : diMaskD.map Record.gender = List.replicate 404 "Female" ++ ["Male"] := by
    rw [diMaskD]
    simp only [List.map_append, List.map_replicate, List.map_cons, List.map_nil, mkRec]
    rw [← List.replicate_add]
  have hkeys : keysOf (diMaskD.map Record.gender) = ["Female", "Male"] := by
    rw [hmap]
    exact keysOf_replicate_append 403 "Female" "Male" (by simp)
  have hpF1 : ((fun r => Record.gender r == "Female") (mkRec 25 "Female" 1000 1 1)) =
      true := rfl
  have hpF0 : ((fun r => Record.gender r == "Female") (mkRec 25 "Female" 1000 0 0)) =
      true := rfl
  have hpFM : ((fun r => Record.gender r == "Female") (mkRec 25 "Male" 1000 1 1)) =
      false := rfl
  have hpM1 : ((fun r => Record.gender r == "Male") (mkRec 25 "Female" 1000 1 1)) =
      false := rfl
  have hpM0 : ((fun r => Record.gender r == "Male") (mkRec 25 "Female" 1000 0 0)) =
      false := rfl
  have hpMM : ((fun r => Record.gender r == "Male") (mkRec 25 "Male" 1000 1 1)) =
      true := rfl
  have hfF : diMaskD.filter (fun r => Record.gender r == "Female") =
      List.replicate 323 (mkRec 25 "Female" 1000 1 1) ++
        List.replicate 81 (mkRec 25 "Female" 1000 0 0) := by
    rw [diMaskD, List.filter_append, List.filter_append,
      filter_replicate_pos hpF1, filter_replicate_pos hpF0]
    simp only [List.filter_cons, hpFM, List.filter_nil]
    rw [if_neg Bool.false_ne_true, List.append_nil]
  have hfM : diMaskD.filter (fun r => Record.gender r == "Male") =
      [mkRec 25 "Male" 1000 1 1] := by
    rw [diMaskD, List.filter_append, List.filter_append,
      filter_replicate_neg hpM1, filter_replicate_neg hpM0]
    simp only [List.filter_cons, hpMM, List.filter_nil]
    rw [if_true]
    simp only [List.nil_append]
  have hmF : meanQ ((diMaskD.filter (fun r => Record.gender r == "Female")).map
      Record.prediction) = 323 / 404 := by
    rw [hfF, List.map_append, List.map_replicate, List.map_replicate]
    unfold meanQ
    rw [List.sum_append, List.sum_replicate, List.sum_replicate, List.length_append,
      List.length_replicate, List.length_replicate]
    simp only [mkRec, nsmul_eq_mul]
    norm_num
  have hmM : meanQ ((diMaskD.filter (fun r => Record.gender r == "Male")).map
      Record.prediction) = 1 := by
    rw [hfM]
    simp only [List.map_cons, List.map_nil, mkRec, meanQ, List.sum_cons, List.sum_nil,
      List.length_cons, List.length_nil]
    norm_num
  unfold groupMeans
  rw [hkeys]
  simp only [List.map_cons, List.map_nil]
  rw [hmF, hmM]

/-- C9: the violation flag is evaluated on the unrounded ratio while
the reported di_ratio is rounded to 3 decimals, so the C9 dataset
reports di_ratio = 0.8 (at threshold) together with violation = true;
in general every unrounded ratio in [0.7995, 0.8) reports 0.8 with a
violation. -/
theorem C9_rounding_masks_violation :
    ((calculate_disparate_impact diMaskD "gender" Record.gender).violation = true ∧
     (calculate_disparate_impact diMaskD "gender" Record.gender).di_ratio = 8 / 10 ∧
     DI_THRESHOLD ≤ (calculate_disparate_impact diMaskD "gender" Record.gender).di_ratio) ∧
    (∀ r : ℚ, 1599 / 2000 ≤ r → r < 8 / 10 → roundTo 3 r = 8 / 10 ∧ r < DI_THRESHOLD) := by
  have hgen : ∀ r : ℚ, 1599 / 2000 ≤ r → r < 8 / 10 →
      roundTo 3 r = 8 / 10 ∧ r < DI_THRESHOLD := by
    intro r h1 h2
    constructor
    · unfold roundTo
      rw [round_eq]
      have hf : ⌊r * 10 ^ 3 + 1 / 2⌋ = 800 := by
        apply Int.floor_eq_iff.2
        constructor
        · push_cast
          nlinarith
        · push_cast
          nlinarith
      rw [hf]
      norm_num
    · rw [DI_THRESHOLD]
      exact h2
  have hDI := calcDI_gender_eq diMaskD (by rw [diMaskD_groupMeans]; norm_num)
  rw [diMaskD_groupMeans] at hDI
  have hlm : lookupD [("Female", (323 : ℚ) / 404), ("Male", 1)] "Male" = 1 := rfl
  have hlf : lookupD [("Female", (323 : ℚ) / 404), ("Male", 1)] "Female" = 323 / 404 := rfl
  rw [hlm, hlf] at hDI
  have hraw : diRatioRaw 1 ((323 : ℚ) / 404) = 323 / 404 := by
    rw [diRatioRaw, if_pos (by norm_num)]
    norm_num
  rw [hraw] at hDI
  have hbounds : (1599 : ℚ) / 2000 ≤ 323 / 404 ∧ (323 : ℚ) / 404 < 8 / 10 := by
    norm_num
  obtain ⟨hround, hlt⟩ := hgen (323 / 404) hbounds.1 hbounds.2
  refine ⟨⟨?_, ?_, ?_⟩, hgen⟩
  · rw [hDI]
    simp only [decide_eq_true_eq]
    exact hlt
  · rw [hDI, hround]
  · rw [hDI, hround, DI_THRESHOLD]

/-- C9 witness: the rounding interval fact applied at the concrete
ratio 323/404 ∈ [0.7995, 0.8). -/
theorem C9_rounding_masks_violation_witness :
    roundTo 3 ((323 : ℚ) / 404) = 8 / 10 ∧ (323 : ℚ) / 404 < DI_THRESHOLD :=
  C9_rounding_masks_violation.2 (323 / 404) (by norm_num) (by norm_num)

theorem genderRiskFun_nonneg (r : ℚ) : 0 ≤ genderRiskFun r := by
  rw [genderRiskFun]
  by_cases h : r < DI_THRESHOLD
  · simp only [if_pos h]
    rw [DI_THRESHOLD] at h ⊢
    nlinarith
  · simp only [if_neg h]
    exact le_max_left 0 _

theorem ageRiskFun_nonneg (r : ℚ) : 0 ≤ ageRiskFun r := by
  rw [ageRiskFun]
  by_cases h : r < DI_THRESHOLD
  · simp only [if_pos h]
    exact mul_nonneg (le_max_left 0 _) (by norm_num)
  · simp only [if_neg h]
    norm_num

theorem biasRiskRaw_bounds (D : List Record) : 0 ≤ biasRiskRaw D ∧ biasRiskRaw D ≤ 100 := by
  unfold biasRiskRaw
  constructor
  · apply le_min (by norm_num)
    have h1 := genderRiskFun_nonneg (calculate_disparate_impact D "gender" Record.gender).di_ratio
    have h2 := ageRiskFun_nonneg (calculate_age_group_bias D).di_ratio
    have h3 : (0 : ℚ) ≤ if (detect_income_proxy_bias D).proxy_detected then 20 else 0 := by
      split <;> norm_num
    positivity
  · exact min_le_left _ _

theorem roundTo_nonneg (n : Nat) {x : ℚ} (h : 0 ≤ x) : 0 ≤ roundTo n x := by
  have h0 := intCast_le_roundTo n 0 (by simpa using h)
  simpa using h0

theorem roundTo_le_100 (n : Nat) {x : ℚ} (h : x ≤ 100) : roundTo n x ≤ 100 := by
  have h0 := roundTo_le_intCast n 100 (by simpa using h)
  simpa using h0

theorem documentationCoverage_eq : documentationCoverage = 100 := by
  norm_num [documentationCoverage, keyFeatures, schemaColumns]

theorem auditTrailTotalCoverage_eq : auditTrailTotalCoverage = 100 := by
  norm_num [auditTrailTotalCoverage, requiredFields, optionalFields, schemaColumns]

theorem nearBoundaryFrac_bounds (D : List Record) (h : D ≠ []) :
    0 ≤ nearBoundaryFrac D ∧ nearBoundaryFrac D ≤ 1 := by
  unfold nearBoundaryFrac
  have hmem : ∀ x ∈ D.map (fun r =>
      match approvalScore r with
      | some s => if 4 / 10 < s ∧ s < 6 / 10 then (1 : ℚ) else 0
      | none => 0), 0 ≤ x ∧ x ≤ 1 := by
    intro x hx
    obtain ⟨r, _, hr⟩ := List.mem_map.1 hx
    subst hr
    cases approvalScore r with
    | none => norm_num
    | some s =>
      simp only []
      split <;> norm_num
  constructor
  · exact meanQ_nonneg (fun x hx => (hmem x hx).1)
  · exact meanQ_le_one (by simpa using h) (fun x hx => (hmem x hx).2)

theorem clarityRaw_bounds (D : List Record) (h : D ≠ []) :
    0 ≤ clarityRaw D ∧ clarityRaw D ≤ 100 := by
  obtain ⟨h1, h2⟩ := nearBoundaryFrac_bounds D h
  unfold clarityRaw
  constructor <;> nlinarith

theorem explainabilityRaw_bounds (D : List Record) (h : D ≠ []) :
    0 ≤ explainabilityRaw D ∧ explainabilityRaw D ≤ 100 := by
  obtain ⟨h1, h2⟩ := clarityRaw_bounds D h
  have hr1 : 0 ≤ roundTo 1 (clarityRaw D) := roundTo_nonneg 1 h1
  have hr2 : roundTo 1 (clarityRaw D) ≤ 100 := roundTo_le_100 1 h2
  unfold explainabilityRaw
  rw [documentationCoverage_eq, auditTrailTotalCoverage_eq]
  constructor <;> nlinarith

theorem featuresWithDrift_le_4 (k : KSFlags) : featuresWithDrift k ≤ 4 := by
  rcases k with ⟨a, b, c, d⟩
  unfold featuresWithDrift
  cases a <;> cases b <;> cases c <;> cases d <;> simp

theorem driftRiskRaw_le_100 (k : KSFlags) (br : ℚ) (D : List Record) :
    driftRiskRaw k br D ≤ 100 := by
  unfold driftRiskRaw
  have hc : ((featuresWithDrift k : ℚ)) ≤ 4 := by
    exact_mod_cast featuresWithDrift_le_4 k
  have h1 : ((featuresWithDrift k : ℚ) / 4) * 40 ≤ 40 := by linarith
  have h2 : min (40 : ℚ) ((calculate_accuracy_drift D).accuracy_drop_percent * 4) ≤ 40 :=
    min_le_left _ _
  have h3 : min (20 : ℚ)
      (|(calculate_prediction_drift br D).rate_change_percent| * 2) ≤ 20 :=
    min_le_left _ _
  linarith

theorem driftRiskRaw_nonneg (k : KSFlags) (br : ℚ) (D : List Record)
    (h : currentAccuracyRaw D ≤ 87 / 100) : 0 ≤ driftRiskRaw k br D := by
  unfold driftRiskRaw
  have h1 : (0 : ℚ) ≤ ((featuresWithDrift k : ℚ) / 4) * 40 := by positivity
  have hpct : 0 ≤ (calculate_accuracy_drift D).accuracy_drop_percent := by
    unfold calculate_accuracy_drift BASELINE_ACCURACY
    apply roundTo_nonneg
    have hd : 0 ≤ 87 / 100 - currentAccuracyRaw D := by linarith
    positivity
  have h2 : (0 : ℚ) ≤ min 40 ((calculate_accuracy_drift D).accuracy_drop_percent * 4) :=
    le_min (by norm_num) (by positivity)
  have h3 : (0 : ℚ) ≤ min 20
      (|(calculate_prediction_drift br D).rate_change_percent| * 2) :=
    le_min (by norm_num) (by positivity)
  linarith

/-- C1 (amended): the bias risk score, the explainability score and
the composite AI risk score all lie in [0,100], and the drift risk
score never exceeds 100 and is nonnegative whenever the current
accuracy does not exceed the 0.87 baseline — but the drift score has
no lower clamp and goes negative when the accuracy exceeds the
baseline. -/
theorem C1_score_ranges_amended :
    (∀ D : List Record, 0 ≤ (calculate_bias_risk_score D).bias_risk_score ∧
      (calculate_bias_risk_score D).bias_risk_score ≤ 100) ∧
    (∀ D : List Record, D ≠ [] →
      0 ≤ (calculate_explainability_score D).explainability_score ∧
      (calculate_explainability_score D).explainability_score ≤ 100) ∧
    (∀ (k : KSFlags) (br : ℚ) (D : List Record),
      (calculate_drift_risk_score k br D).drift_risk_score ≤ 100 ∧
      (currentAccuracyRaw D ≤ 87 / 100 →
        0 ≤ (calculate_drift_risk_score k br D).drift_risk_score)) ∧
    (∀ b d e : ℚ, 0 ≤ (calculate_ai_risk_score b d e).score ∧
      (calculate_ai_risk_score b d e).score ≤ 100) := by
  refine ⟨?_, ?_, ?_, ?_⟩
  · intro D
    obtain ⟨h1, h2⟩ := biasRiskRaw_bounds D
    exact ⟨roundTo_nonneg 1 h1, roundTo_le_100 1 h2⟩
  · intro D hD
    obtain ⟨h1, h2⟩ := explainabilityRaw_bounds D hD
    exact ⟨roundTo_nonneg 1 h1, roundTo_le_100 1 h2⟩
  · intro k br D
    constructor
    · exact roundTo_le_100 1 (driftRiskRaw_le_100 k br D)
    · intro hacc
      exact roundTo_nonneg 1 (driftRiskRaw_nonneg k br D hacc)
  · intro b d e
    have h1 : 0 ≤ aiRiskRaw b d e := le_min (by norm_num) (le_max_left 0 _)
    have h2 : aiRiskRaw b d e ≤ 100 := min_le_left _ _
    exact ⟨roundTo_nonneg 1 h1, roundTo_le_100 1 h2⟩

/-- C1 counterexample: on a two-row dataset with perfect predictions
(accuracy 1.0 > baseline 0.87), no feature drift and an unchanged
approval rate, the drift risk score is −59.6 — the accuracy component
min(40, drop%·4) has no lower clamp, so the total is negative,
refuting drift ∈ [0,100]. -/
theorem C1_drift_negative_counterexample :
    (calculate_drift_risk_score ⟨false, false, false, false⟩ (1 / 2)
      perfectAccD).drift_risk_score = -(596 / 10) ∧
    (calculate_drift_risk_score ⟨false, false, false, false⟩ (1 / 2)
      perfectAccD).drift_risk_score < 0 := by
  have hacc : currentAccuracyRaw perfectAccD = 1 := by
    unfold currentAccuracyRaw perfectAccD mkRec meanQ
    norm_num
  have hpct : (calculate_accuracy_drift perfectAccD).accuracy_drop_percent =
      -(149 / 10) := by
    simp only [calculate_accuracy_drift, BASELINE_ACCURACY, hacc]
    have hval : (87 / 100 - (1 : ℚ)) / (87 / 100) * 100 = -(1300 / 87) := by norm_num
    rw [hval]
    unfold roundTo
    rw [round_eq]
    have hf : ⌊-(1300 / 87 : ℚ) * 10 ^ 1 + 1 / 2⌋ = -149 := by
      apply Int.floor_eq_iff.2
      constructor
      · push_cast
        norm_num
      · push_cast
        norm_num
    rw [hf]
    norm_num
  have hrate : meanQ (perfectAccD.map Record.prediction) = 1 / 2 := by
    unfold perfectAccD mkRec meanQ
    norm_num
  have hppct : (calculate_prediction_drift (1 / 2) perfectAccD).rate_change_percent = 0 := by
    unfold calculate_prediction_drift
    rw [hrate]
    norm_num [roundTo, round_eq]
  have hcnt : featuresWithDrift ⟨false, false, false, false⟩ = 0 := rfl
  have hraw : driftRiskRaw ⟨false, false, false, false⟩ (1 / 2) perfectAccD = -(596 / 10) := by
    simp only [driftRiskRaw, hpct, hppct, hcnt]
    norm_num [min_def]
  have hfinal : (calculate_drift_risk_score ⟨false, false, false, false⟩ (1 / 2)
      perfectAccD).drift_risk_score = roundTo 1 (driftRiskRaw ⟨false, false, false, false⟩
        (1 / 2) perfectAccD) := rfl
  have heq : roundTo 1 (-(596 / 10) : ℚ) = -(596 / 10) := by
    unfold roundTo
    rw [round_eq]
    have hf : ⌊-(596 / 10 : ℚ) * 10 ^ 1 + 1 / 2⌋ = -596 := by
      apply Int.floor_eq_iff.2
      constructor
      · push_cast
        norm_num
      · push_cast
        norm_num
    rw [hf]
    push_cast
    norm_num
  rw [hfinal, hraw, heq]
  norm_num

/-- C1 witness: the range facts instantiated at the one-row dataset
with a wrong prediction (accuracy 0 ≤ 0.87). -/
theorem C1_score_ranges_amended_witness :
    (0 ≤ (calculate_explainability_score oneRowWrongD).explainability_score ∧
      (calculate_explainability_score oneRowWrongD).explainability_score ≤ 100) ∧
    (calculate_drift_risk_score ⟨false, false, false, false⟩ (1 / 2)
      oneRowWrongD).drift_risk_score ≤ 100 ∧
    0 ≤ (calculate_drift_risk_score ⟨false, false, false, false⟩ (1 / 2)
      oneRowWrongD).drift_risk_score := by
  have h1 := C1_score_ranges_amended.2.1 oneRowWrongD (by simp [oneRowWrongD])
  have h2 := C1_score_ranges_amended.2.2.1 ⟨false, false, false, false⟩ (1 / 2) oneRowWrongD
  have hacc : currentAccuracyRaw oneRowWrongD = 0 := by
    unfold currentAccuracyRaw oneRowWrongD mkRec meanQ
    norm_num
  exact ⟨h1, h2.1, h2.2 (by rw [hacc]; norm_num)⟩

theorem genderRiskFun_antitone {r rp : ℚ} (h : rp ≤ r) :
    genderRiskFun r ≤ genderRiskFun rp := by
  simp only [genderRiskFun, DI_THRESHOLD]
  split_ifs with h1 h2 h2
  · linarith
  · linarith
  · apply max_le
    · linarith
    · nlinarith
  · exact max_le_max le_rfl (by linarith)

/-- C6 (amended): holding the privileged (Male) rate fixed and
positive, strictly decreasing the unprivileged (Female) rate strictly
decreases the raw gender DI ratio and never decreases the gender risk
component of the bias score; the composite bias score itself can
decrease (see the counterexample) because the income-proxy and
age-group components also depend on the female predictions. -/
theorem C6_monotonicity_amended :
    ∀ D Dp : List Record,
      2 ≤ (groupMeans D Record.gender).length →
      2 ≤ (groupMeans Dp Record.gender).length →
      lookupD (groupMeans Dp Record.gender) "Male" =
        lookupD (groupMeans D Record.gender) "Male" →
      0 < lookupD (groupMeans D Record.gender) "Male" →
      lookupD (groupMeans Dp Record.gender) "Female" <
        lookupD (groupMeans D Record.gender) "Female" →
      diRatioRaw (lookupD (groupMeans Dp Record.gender) "Male")
          (lookupD (groupMeans Dp Record.gender) "Female") <
        diRatioRaw (lookupD (groupMeans D Record.gender) "Male")
          (lookupD (groupMeans D Record.gender) "Female") ∧
      genderRiskFun (calculate_disparate_impact D "gender" Record.gender).di_ratio ≤
        genderRiskFun (calculate_disparate_impact Dp "gender" Record.gender).di_ratio := by
  intro D Dp h2 h2p hM hMpos hF
  have hratio : diRatioRaw (lookupD (groupMeans Dp Record.gender) "Male")
      (lookupD (groupMeans Dp Record.gender) "Female") <
      diRatioRaw (lookupD (groupMeans D Record.gender) "Male")
        (lookupD (groupMeans D Record.gender) "Female") := by
    rw [diRatioRaw, diRatioRaw, if_pos (by rw [hM]; exact hMpos), if_pos hMpos, hM]
    gcongr
  refine ⟨hratio, ?_⟩
  rw [calcDI_gender_eq D h2, calcDI_gender_eq Dp h2p]
  apply genderRiskFun_antitone
  apply roundTo_mono
  rw [diRatioRaw, diRatioRaw, if_pos (by rw [hM]; exact hMpos), if_pos hMpos, hM] at hratio
  rw [diRatioRaw, diRatioRaw, if_pos (by rw [hM]; exact hMpos), if_pos hMpos, hM]
  exact le_of_lt hratio

/-- C6 witness: the monotonicity facts applied to the two-row dataset
and its variant with the female denied (female rate 1 → 0, male rate
fixed at 1). -/
theorem C6_monotonicity_amended_witness :
    diRatioRaw (lookupD (groupMeans twoGroupDp Record.gender) "Male")
        (lookupD (groupMeans twoGroupDp Record.gender) "Female") <
      diRatioRaw (lookupD (groupMeans twoGroupD Record.gender) "Male")
        (lookupD (groupMeans twoGroupD Record.gender) "Female") ∧
    genderRiskFun (calculate_disparate_impact twoGroupD "gender" Record.gender).di_ratio ≤
      genderRiskFun (calculate_disparate_impact twoGroupDp "gender" Record.gender).di_ratio := by
  have hgm : groupMeans twoGroupD Record.gender = [("Male", 1), ("Female", 1)] := by
    simp [groupMeans, keysOf, twoGroupD, mkRec, meanQ]
  have hgmp : groupMeans twoGroupDp Record.gender = [("Male", 1), ("Female", 0)] := by
    simp [groupMeans, keysOf, twoGroupDp, mkRec, meanQ]
  exact C6_monotonicity_amended twoGroupD twoGroupDp (by rw [hgm]; norm_num)
    (by rw [hgmp]; norm_num) (by rw [hgm, hgmp]; rfl)
    (by rw [hgm]; show (0 : ℚ) < 1; norm_num)
    (by rw [hgm, hgmp]; show (0 : ℚ) < 1; norm_num)

/-- The gender group means of the C6 counterexample pair: male rate
1/4 in both, female rate 3/4 before and 1/2 after. -/
theorem proxyFlip_groupMeans :
    groupMeans proxyFlipD Record.gender = [("Male", 1 / 4), ("Female", 3 / 4)] ∧
    groupMeans proxyFlipDp Record.gender = [("Male", 1 / 4), ("Female", 1 / 2)] := by
  constructor
  · simp [groupMeans, keysOf, proxyFlipD, mkRec, meanQ]
    norm_num
  · simp [groupMeans, keysOf, proxyFlipDp, mkRec, meanQ]
    norm_num

/-- The composite bias score of the C6 counterexample pair: 3.0
before (income-proxy flag fired) and 0.0 after. -/
theorem proxyFlip_bias_scores :
    (calculate_bias_risk_score proxyFlipD).bias_risk_score = 3 ∧
    (calculate_bias_risk_score proxyFlipDp).bias_risk_score = 0 := by
  have h25 : ageBucket 25 = some "18-30" := by norm_num [ageBucket]
  have hdiD : (calculate_disparate_impact proxyFlipD "gender" Record.gender).di_ratio = 3 := by
    have h := calcDI_gender_eq proxyFlipD (by rw [proxyFlip_groupMeans.1]; norm_num)
    rw [proxyFlip_groupMeans.1] at h
    rw [h]
    have hraw : diRatioRaw ((1 : ℚ) / 4) (3 / 4) = 3 := by
      rw [diRatioRaw, if_pos (by norm_num)]
      norm_num
    have hlm : lookupD [("Male", (1 : ℚ) / 4), ("Female", 3 / 4)] "Male" = 1 / 4 := rfl
    have hlf : lookupD [("Male", (1 : ℚ) / 4), ("Female", 3 / 4)] "Female" = 3 / 4 := rfl
    rw [hlm, hlf, hraw]
    norm_num [roundTo, round_eq]
  have hdiDp : (calculate_disparate_impact proxyFlipDp "gender" Record.gender).di_ratio =
      2 := by
    have h := calcDI_gender_eq proxyFlipDp (by rw [proxyFlip_groupMeans.2]; norm_num)
    rw [proxyFlip_groupMeans.2] at h
    rw [h]
    have hraw : diRatioRaw ((1 : ℚ) / 4) (1 / 2) = 2 := by
      rw [diRatioRaw, if_pos (by norm_num)]
      norm_num
    have hlm : lookupD [("Male", (1 : ℚ) / 4), ("Female", 1 / 2)] "Male" = 1 / 4 := rfl
    have hlf : lookupD [("Male", (1 : ℚ) / 4), ("Female", 1 / 2)] "Female" = 1 / 2 := rfl
    rw [hlm, hlf, hraw]
    norm_num [roundTo, round_eq]
  have hvalidD : validAgeRates proxyFlipD = [1 / 2] := by
    simp [validAgeRates, ageRates, bucketNames, proxyFlipD, mkRec, h25, meanOpt, meanQ]
    try norm_num
  have hvalidDp : validAgeRates proxyFlipDp = [3 / 8] := by
    simp [validAgeRates, ageRates, bucketNames, proxyFlipDp, mkRec, h25, meanOpt, meanQ]
    try norm_num
  have hageD : (calculate_age_group_bias proxyFlipD).di_ratio = 1 := by
    have hraw : ageDIRaw proxyFlipD = 1 := by
      simp only [ageDIRaw, hvalidD, omaxQ, ominQ]
      norm_num
    simp only [calculate_age_group_bias, hraw]
    norm_num [roundTo, round_eq]
  have hageDp : (calculate_age_group_bias proxyFlipDp).di_ratio = 1 := by
    have hraw : ageDIRaw proxyFlipDp = 1 := by
      simp only [ageDIRaw, hvalidDp, omaxQ, ominQ]
      norm_num
    simp only [calculate_age_group_bias, hraw]
    norm_num [roundTo, round_eq]
  have hproxD : (detect_income_proxy_bias proxyFlipD).proxy_detected = true := by
    have hmD : subgroupIncomeMean proxyFlipD "Male" 0 = some 1000 := by
      simp [subgroupIncomeMean, proxyFlipD, mkRec, meanOpt, meanQ, beq_iff_eq]
      try norm_num
    have hfD : subgroupIncomeMean proxyFlipD "Female" 0 = some 2000 := by
      simp [subgroupIncomeMean, proxyFlipD, mkRec, meanOpt, meanQ, beq_iff_eq]
      try norm_num
    simp only [detect_income_proxy_bias, hmD, hfD, Option.map_some', nanGT]
    norm_num
  have hproxDp : (detect_income_proxy_bias proxyFlipDp).proxy_detected = false := by
    have hmDp : subgroupIncomeMean proxyFlipDp "Male" 0 = some 1000 := by
      simp [subgroupIncomeMean, proxyFlipDp, mkRec, meanOpt, meanQ, beq_iff_eq]
      try norm_num
    have hfDp : subgroupIncomeMean proxyFlipDp "Female" 0 = some 1000 := by
      simp [subgroupIncomeMean, proxyFlipDp, mkRec, meanOpt, meanQ, beq_iff_eq]
      try norm_num
    simp only [detect_income_proxy_bias, hmDp, hfDp, Option.map_some', nanGT]
    norm_num
  have hrawD : biasRiskRaw proxyFlipD = 3 := by
    simp only [biasRiskRaw, hdiD, hageD, hproxD]
    norm_num [genderRiskFun, ageRiskFun, DI_THRESHOLD, max_def, min_def]
  have hrawDp : biasRiskRaw proxyFlipDp = 0 := by
    simp only [biasRiskRaw, hdiDp, hageDp, hproxDp]
    norm_num [genderRiskFun, ageRiskFun, DI_THRESHOLD, max_def, min_def]
  have hsD : (calculate_bias_risk_score proxyFlipD).bias_risk_score =
      roundTo 1 (biasRiskRaw proxyFlipD) := rfl
  have hsDp : (calculate_bias_risk_score proxyFlipDp).bias_risk_score =
      roundTo 1 (biasRiskRaw proxyFlipDp) := rfl
  rw [hsD, hsDp, hrawD, hrawDp]
  constructor <;> norm_num [roundTo, round_eq]

/-- C6 counterexample: between the two datasets the male rate is
fixed at 1/4 and the female rate strictly drops (3/4 → 1/2), yet the
composite bias score drops from 3.0 to 0.0 — denying the zero-income
female lowers the denied-female mean income below 1.1× the
denied-male mean and clears the 20-point income-proxy component,
while the gender risk stays 0 (ratio above threshold). -/
theorem C6_bias_score_decreases_counterexample :
    lookupD (groupMeans proxyFlipDp Record.gender) "Male" =
      lookupD (groupMeans proxyFlipD Record.gender) "Male" ∧
    0 < lookupD (groupMeans proxyFlipD Record.gender) "Male" ∧
    lookupD (groupMeans proxyFlipDp Record.gender) "Female" <
      lookupD (groupMeans proxyFlipD Record.gender) "Female" ∧
    (calculate_bias_risk_score proxyFlipDp).bias_risk_score <
      (calculate_bias_risk_score proxyFlipD).bias_risk_score := by
  obtain ⟨h1, h2⟩ := proxyFlip_groupMeans
  obtain ⟨hs1, hs2⟩ := proxyFlip_bias_scores
  refine ⟨?_, ?_, ?_, ?_⟩
  · rw [h1, h2]
    rfl
  · rw [h1]
    show (0 : ℚ) < 1 / 4
    norm_num
  · rw [h1, h2]
    show (1 : ℚ) / 2 < 3 / 4
    norm_num
  · rw [hs1, hs2]
    norm_num

theorem severityRank_le_4 (s : String) : severityRank s ≤ 4 := by
  unfold severityRank
  split_ifs <;> omega

theorem recRank_le_4 (r : Reco) : recRank r ≤ 4 := severityRank_le_4 r.severity

theorem rank_of_mem_filter {l : List Reco} {k : Nat} {r : Reco}
    (h : r ∈ l.filter (fun x => recRank x == k)) : recRank r = k := by
  have := (List.mem_filter.1 h).2
  simpa using this

theorem count_rank_bucket (a : Reco) (l : List Reco) (k : Nat) :
    ((l.filter (fun x => recRank x == k)).count a) =
      if recRank a = k then l.count a else 0 := by
  split_ifs with h
  · exact List.count_filter (by simpa using h)
  · refine List.count_eq_zero.2 ?_
    intro hmem
    exact h (rank_of_mem_filter hmem)

theorem severitySort_perm (l : List Reco) : List.Perm (severitySort l) l := by
  rw [List.perm_iff_count]
  intro a
  simp only [severitySort, List.count_append, count_rank_bucket]
  have h4 := recRank_le_4 a
  have hc : recRank a = 0 ∨ recRank a = 1 ∨ recRank a = 2 ∨ recRank a = 3 ∨
      recRank a = 4 := by omega
  rcases hc with h | h | h | h | h <;> simp [h]

theorem pairwise_all {R : Reco → Reco → Prop} :
    ∀ l : List Reco, (∀ a ∈ l, ∀ b ∈ l, R a b) → l.Pairwise R := by
  intro l h
  induction l with
  | nil => exact List.Pairwise.nil
  | cons x xs ih =>
    refine List.Pairwise.cons ?_ (ih ?_)
    · intro b hb
      exact h x (List.mem_cons_self x xs) b (List.mem_cons_of_mem x hb)
    · intro a ha b hb
      exact h a (List.mem_cons_of_mem x ha) b (List.mem_cons_of_mem x hb)

theorem pairwise_rank_bucket (l : List Reco) (k : Nat) :
    (l.filter (fun x => recRank x == k)).Pairwise (fun a b => recRank a ≤ recRank b) := by
  apply pairwise_all
  intro a ha b hb
  rw [rank_of_mem_filter ha, rank_of_mem_filter hb]

theorem severitySort_sorted (l : List Reco) :
    ((severitySort l).map recRank).Sorted (· ≤ ·) := by
  rw [List.Sorted, List.pairwise_map]
  unfold severitySort
  refine List.pairwise_append.2 ⟨List.pairwise_append.2 ⟨List.pairwise_append.2
    ⟨List.pairwise_append.2 ⟨pairwise_rank_bucket l 0, pairwise_rank_bucket l 1, ?_⟩,
      pairwise_rank_bucket l 2, ?_⟩, pairwise_rank_bucket l 3, ?_⟩,
    pairwise_rank_bucket l 4, ?_⟩
  · intro a ha b hb
    rw [rank_of_mem_filter ha, rank_of_mem_filter hb]
    omega
  · intro a ha b hb
    rcases List.mem_append.1 ha with h | h <;>
      rw [rank_of_mem_filter h, rank_of_mem_filter hb] <;> omega
  · intro a ha b hb
    rw [rank_of_mem_filter hb]
    rcases List.mem_append.1 ha with h | h
    · rcases List.mem_append.1 h with h1 | h1 <;> rw [rank_of_mem_filter h1] <;> omega
    · rw [rank_of_mem_filter h]
      omega
  · intro a ha b hb
    rw [rank_of_mem_filter hb]
    rcases List.mem_append.1 ha with h | h
    · rcases List.mem_append.1 h with h1 | h1
      · rcases List.mem_append.1 h1 with h2 | h2 <;> rw [rank_of_mem_filter h2] <;> omega
      · rw [rank_of_mem_filter h1]
        omega
    · rw [rank_of_mem_filter h]
      omega

theorem bucket_sev_filter (l : List Reco) (s : String) (k : Nat) :
    (l.filter (fun x => recRank x == k)).filter (fun r => r.severity == s) =
      if severityRank s = k then l.filter (fun r => r.severity == s) else [] := by
  rw [List.filter_filter]
  split_ifs with h
  · apply List.filter_congr
    intro r _
    cases hsev : (r.severity == s) with
    | true =>
      have : r.severity = s := by simpa using hsev
      have hr : recRank r = k := by rw [recRank, this, h]
      simp [hsev, hr]
    | false => simp [hsev]
  · refine List.filter_eq_nil_iff.2 ?_
    intro r _
    intro hcontra
    simp only [Bool.and_eq_true, beq_iff_eq] at hcontra
    exact h (hcontra.1 ▸ hcontra.2 ▸ rfl)

theorem severitySort_stable (l : List Reco) (s : String) :
    (severitySort l).filter (fun r => r.severity == s) =
      l.filter (fun r => r.severity == s) := by
  unfold severitySort
  simp only [List.filter_append, bucket_sev_filter]
  have h4 := severityRank_le_4 s
  have hc : severityRank s = 0 ∨ severityRank s = 1 ∨ severityRank s = 2 ∨
      severityRank s = 3 ∨ severityRank s = 4 := by omega
  rcases hc with h | h | h | h | h <;> simp [h]

theorem ite_cons_sublist {c : Prop} [Decidable c] (x : Reco) {r R : List Reco}
    (h : List.Sublist r R) : List.Sublist ((if c then [x] else []) ++ r) (x :: R) := by
  split
  · simpa using h.cons₂ x
  · simpa using h.cons x

theorem ite_singleton_sublist {c : Prop} [Decidable c] (x : Reco) :
    List.Sublist (if c then [x] else []) [x] := by
  split <;> simp

theorem gb_sublist (b : BiasResult) :
    List.Sublist (generate_bias_recommendations b)
      [⟨"BIAS_001", "Critical", "Bias"⟩, ⟨"BIAS_002", "Critical", "Bias"⟩,
       ⟨"BIAS_003", "High", "Bias"⟩, ⟨"BIAS_004", "Moderate", "Bias"⟩] := by
  unfold generate_bias_recommendations
  rw [List.append_assoc, List.append_assoc]
  exact ite_cons_sublist _ (ite_cons_sublist _ (ite_cons_sublist _
    (ite_singleton_sublist _)))

theorem gd_sublist (d : DriftResult) :
    List.Sublist (generate_drift_recommendations d)
      [⟨"DRIFT_001", "Critical", "Drift"⟩, ⟨"DRIFT_002", "High", "Drift"⟩,
       ⟨"DRIFT_003", "High", "Drift"⟩, ⟨"DRIFT_004", "Moderate", "Drift"⟩] := by
  unfold generate_drift_recommendations
  rw [List.append_assoc, List.append_assoc]
  exact ite_cons_sublist _ (ite_cons_sublist _ (ite_cons_sublist _
    (ite_singleton_sublist _)))

theorem ge_sublist (e : ExplainabilityResult) :
    List.Sublist (generate_explainability_recommendations e)
      [⟨"EXPLAIN_001", "High", "Explainability"⟩,
       ⟨"EXPLAIN_002", "Moderate", "Explainability"⟩,
       ⟨"EXPLAIN_003", "Moderate", "Explainability"⟩] := by
  unfold generate_explainability_recommendations
  rw [List.append_assoc]
  exact ite_cons_sublist _ (ite_cons_sublist _ (ite_singleton_sublist _))

theorem base_mem_fixed (b : BiasResult) (d : DriftResult) (e : ExplainabilityResult) :
    ∀ r ∈ generate_bias_recommendations b ++ generate_drift_recommendations d ++
      generate_explainability_recommendations e,
      r ∈ [(⟨"BIAS_001", "Critical", "Bias"⟩ : Reco), ⟨"BIAS_002", "Critical", "Bias"⟩,
       ⟨"BIAS_003", "High", "Bias"⟩, ⟨"BIAS_004", "Moderate", "Bias"⟩,
       ⟨"DRIFT_001", "Critical", "Drift"⟩, ⟨"DRIFT_002", "High", "Drift"⟩,
       ⟨"DRIFT_003", "High", "Drift"⟩, ⟨"DRIFT_004", "Moderate", "Drift"⟩,
       ⟨"EXPLAIN_001", "High", "Explainability"⟩, ⟨"EXPLAIN_002", "Moderate", "Explainability"⟩,
       ⟨"EXPLAIN_003", "Moderate", "Explainability"⟩] := by
  intro r hr
  rcases List.mem_append.1 hr with h | h
  · rcases List.mem_append.1 h with h1 | h1
    · have := (gb_sublist b).subset h1
      fin_cases this <;> simp
    · have := (gd_sublist d).subset h1
      fin_cases this <;> simp
  · have := (ge_sublist e).subset h
    fin_cases this <;> simp

theorem base_ids_nodup (b : BiasResult) (d : DriftResult) (e : ExplainabilityResult) :
    ((generate_bias_recommendations b ++ generate_drift_recommendations d ++
      generate_explainability_recommendations e).map (fun r => r.id)).Nodup := by
  have hB : List.Sublist ((generate_bias_recommendations b).map (fun r => r.id))
      ["BIAS_001", "BIAS_002", "BIAS_003", "BIAS_004"] := by
    simpa using (gb_sublist b).map (fun r => r.id)
  have hD : List.Sublist ((generate_drift_recommendations d).map (fun r => r.id))
      ["DRIFT_001", "DRIFT_002", "DRIFT_003", "DRIFT_004"] := by
    simpa using (gd_sublist d).map (fun r => r.id)
  have hE : List.Sublist ((generate_explainability_recommendations e).map (fun r => r.id))
      ["EXPLAIN_001", "EXPLAIN_002", "EXPLAIN_003"] := by
    simpa using (ge_sublist e).map (fun r => r.id)
  rw [List.map_append, List.map_append]
  refine List.Nodup.append (List.Nodup.append ?_ ?_ ?_) ?_ ?_
  · exact List.Nodup.sublist hB (by decide)
  · exact List.Nodup.sublist hD (by decide)
  · intro a ha hd
    have h1 := hB.subset ha
    have h2 := hD.subset hd
    fin_cases h1 <;> simp_all
  · exact List.Nodup.sublist hE (by decide)
  · intro a ha he
    have h2 := hE.subset he
    rcases List.mem_append.1 ha with h | h
    · have h1 := hB.subset h
      fin_cases h1 <;> simp_all
    · have h1 := hD.subset h
      fin_cases h1 <;> simp_all

theorem base_countP_overall (b : BiasResult) (d : DriftResult) (e : ExplainabilityResult) :
    (generate_bias_recommendations b ++ generate_drift_recommendations d ++
      generate_explainability_recommendations e).countP
        (fun r => r.category == "Overall") = 0 := by
  refine List.countP_eq_zero.2 ?_
  intro r hr
  have := base_mem_fixed b d e r hr
  fin_cases this <;> simp

theorem unsorted_ids_nodup (b : BiasResult) (d : DriftResult) (e : ExplainabilityResult)
    (s : ℚ) : ((allRecsUnsorted b d e s).map (fun r => r.id)).Nodup := by
  unfold allRecsUnsorted
  split_ifs with h1 h2
  · rw [List.map_cons]
    refine List.nodup_cons.2 ⟨?_, base_ids_nodup b d e⟩
    intro hmem
    obtain ⟨r, hr, hid⟩ := List.mem_map.1 hmem
    have := base_mem_fixed b d e r hr
    fin_cases this <;> simp_all [generalCritical]
  · rw [List.map_append]
    refine List.Nodup.append (base_ids_nodup b d e) (by decide) ?_
    intro a ha hb
    obtain ⟨r, hr, hid⟩ := List.mem_map.1 ha
    have := base_mem_fixed b d e r hr
    simp only [List.map_cons, List.map_nil, List.mem_cons, List.not_mem_nil,
      or_false] at hb
    fin_cases this <;> simp_all [generalMonitor]
  · exact base_ids_nodup b d e

theorem unsorted_countP_overall (b : BiasResult) (d : DriftResult)
    (e : ExplainabilityResult) (s : ℚ) :
    (allRecsUnsorted b d e s).countP (fun r => r.category == "Overall") =
      if 70 < s then 1 else if 50 < s then 1 else 0 := by
  unfold allRecsUnsorted
  split_ifs with h1 h2
  · rw [List.countP_cons, base_countP_overall b d e]
    simp [generalCritical]
  · rw [List.countP_append, base_countP_overall b d e]
    simp [generalMonitor, List.countP_cons]
  · exact base_countP_overall b d e

/-- C5: the recommendation list is sorted in non-decreasing severity
rank (Critical 0, High 1, Moderate 2, Low 3), the stable sort
preserves the relative order of equal-severity items, the ids are
deduplicated, at most one Overall recommendation appears — the
Critical deployment-at-risk item for composite score > 70, else the
Moderate monitoring item for score > 50, none otherwise — and unknown
severities rank strictly after Low. -/
theorem C5_recommendations_sorted_stable_dedup (b : BiasResult) (d : DriftResult)
    (e : ExplainabilityResult) (s : ℚ) :
    ((generate_all_recommendations b d e s).map recRank).Sorted (· ≤ ·) ∧
    (∀ sev : String, (generate_all_recommendations b d e s).filter
        (fun r => r.severity == sev) =
      (allRecsUnsorted b d e s).filter (fun r => r.severity == sev)) ∧
    ((generate_all_recommendations b d e s).map (fun r => r.id)).Nodup ∧
    (generate_all_recommendations b d e s).countP
      (fun r => r.category == "Overall") ≤ 1 ∧
    (70 < s → generalCritical ∈ generate_all_recommendations b d e s ∧
      generalCritical.severity = "Critical" ∧
      (generate_all_recommendations b d e s).countP
        (fun r => r.category == "Overall") = 1) ∧
    (¬ 70 < s → 50 < s → generalMonitor ∈ generate_all_recommendations b d e s ∧
      generalMonitor.severity = "Moderate" ∧
      (generate_all_recommendations b d e s).countP
        (fun r => r.category == "Overall") = 1) ∧
    (s ≤ 50 → (generate_all_recommendations b d e s).countP
      (fun r => r.category == "Overall") = 0) ∧
    (∀ sev : String, sev ≠ "Critical" → sev ≠ "High" → sev ≠ "Moderate" → sev ≠ "Low" →
      severityRank "Low" < severityRank sev) := by
  have hperm := severitySort_perm (allRecsUnsorted b d e s)
  have hcount := hperm.countP_eq (fun r => r.category == "Overall")
  have hcount2 := unsorted_countP_overall b d e s
  refine ⟨severitySort_sorted _, fun sev => severitySort_stable _ sev, ?_, ?_, ?_, ?_, ?_, ?_⟩
  · exact (hperm.map (fun r => r.id)).nodup_iff.2 (unsorted_ids_nodup b d e s)
  · rw [generate_all_recommendations, hcount, hcount2]
    split_ifs <;> omega
  · intro h70
    refine ⟨?_, rfl, ?_⟩
    · apply hperm.mem_iff.2
      unfold allRecsUnsorted
      rw [if_pos h70]
      exact List.mem_cons_self _ _
    · rw [generate_all_recommendations, hcount, hcount2, if_pos h70]
  · intro h70 h50
    refine ⟨?_, rfl, ?_⟩
    · apply hperm.mem_iff.2
      unfold allRecsUnsorted
      rw [if_neg h70, if_pos h50]
      exact List.mem_append.2 (Or.inr (List.mem_cons_self _ _))
    · rw [generate_all_recommendations, hcount, hcount2, if_neg h70, if_pos h50]
  · intro h50
    rw [generate_all_recommendations, hcount, hcount2,
      if_neg (by linarith), if_neg (by linarith)]
  · intro sev hc hh hm hl
    simp [severityRank, hc, hh, hm, hl]

/-- C5 witness: the conditional facts instantiated at composite score
80 (> 70) with empty rule inputs. -/
theorem C5_recommendations_witness :
    generalCritical ∈ generate_all_recommendations
      ⟨0, ⟨1, false, "", 0, "", 0⟩, ⟨1, false, "", ""⟩, ⟨false, none, none, none⟩, [], 0⟩
      ⟨0, "Low", ⟨87 / 100, 0, 0, 0, false⟩, ⟨0, 0, 0, 0, false⟩, 0, []⟩
      ⟨100, []⟩ 80 ∧
    severityRank "Low" < severityRank "Unknown" := by
  have h := C5_recommendations_sorted_stable_dedup
    ⟨0, ⟨1, false, "", 0, "", 0⟩, ⟨1, false, "", ""⟩, ⟨false, none, none, none⟩, [], 0⟩
    ⟨0, "Low", ⟨87 / 100, 0, 0, 0, false⟩, ⟨0, 0, 0, 0, false⟩, 0, []⟩
    ⟨100, []⟩ 80
  exact ⟨(h.2.2.2.2.1 (by norm_num)).1,
    h.2.2.2.2.2.2.2 "Unknown" (by simp) (by simp) (by simp) (by simp)⟩
